import Mathlib

/-!
Verification of the `prompt_studio` backend chat-orchestration subsystem.

The Lean definitions below are a shallow embedding of the Python source under
`backend/`.  Pure helper functions are translated directly; effectful calls
(HTTP requests, `json.loads`, `strftime`) appear as explicit oracle inputs so
that every definition stays executable.  Each definition's doc comment names
the source function it embeds.
-/

namespace PromptStudio

/-- Python-style JSON/dict values, as handled by the backend (`json.loads`
results, tool results, request parameters). -/
inductive PyVal where
  | pynone
  | pybool (b : Bool)
  | pyint (n : Int)
  | pystr (s : String)
  | pylist (xs : List PyVal)
  | pydict (xs : List (String × PyVal))
deriving Repr

/-- Python truthiness (`bool(x)`) for the values above: `None`, `False`, `0`,
empty string/list/dict are falsy. -/
def truthy : PyVal → Bool
  | .pynone => false
  | .pybool b => b
  | .pyint n => decide (n ≠ 0)
  | .pystr s => decide (s ≠ "")
  | .pylist xs => !xs.isEmpty
  | .pydict xs => !xs.isEmpty

/-- Python `s.lower()` (over the ASCII range the backend deals in). -/
def pyLower (s : String) : String := String.mk (s.toList.map Char.toLower)

/-- Python `s.strip()`: whitespace removed from both ends. -/
def pyStrip (s : String) : String :=
  String.mk (((s.toList.dropWhile Char.isWhitespace).reverse.dropWhile Char.isWhitespace).reverse)

/-- Python `s[:n]` on strings. -/
def pyTake (n : Nat) (s : String) : String := String.mk (s.toList.take n)

/-- Association-list lookup standing for `dict.get(k)` (returns `none` when the
key is absent; Python dicts have unique keys, we read the first binding). -/
def dget (d : List (String × PyVal)) (k : String) : Option PyVal :=
  (d.find? (fun p => p.1 = k)).map (fun p => p.2)

/-- `d.get(k)` with Python's `None` default. -/
def dgetD (d : List (String × PyVal)) (k : String) : PyVal :=
  (dget d k).getD .pynone

/-- Key membership, `k in d` for a dict. -/
def hasKey (d : List (String × PyVal)) (k : String) : Bool :=
  (dget d k).isSome

/-- Python `a or b` on values (returns `a` when truthy, else `b`). -/
def pyOr (a b : PyVal) : PyVal := if truthy a then a else b

/-- Python `str(x)`.  The textual representation of containers is irrelevant
to every claim below and is abstracted to a tag. -/
def pyStr : PyVal → String
  | .pynone => "None"
  | .pybool b => if b then "True" else "False"
  | .pyint n => toString n
  | .pystr s => s
  | .pylist _ => "[...]"
  | .pydict _ => "\x7b...\x7d"

/-! ## Time-Constraint Parser

`parse_time_constraints` (backend/app/routers/chat.py, lines 29-104) works by
running a fixed sequence of regular expressions over the lowercased text and
doing date arithmetic on `datetime.utcnow()`.  The regex layer is abstracted
to its match results (`TextFacts`); the current date is abstracted to the
fields the function reads (`NowInfo`, with days counted as absolute day
indices so that `now - timedelta(days=k)` is `now.day - k`).  `strftime`
formatting of a day index is left as an abstract function where a date string
is stored, but the claims are stated on day indices. -/

/-- Which of `parse_time_constraints`' regular expressions match the input
text, in source order: `\btoday\b`, `\byesterday\b`, `\bthis\s+week\b`,
`\blast\s+week\b`, `\bthis\s+month\b`, `\blast\s+month\b`, and the first
match of `\b(last|past|in\s+the\s+last)\s+(\d{1,3})\s+(day|days|...)\b`
as a pair of the number and the unit. -/
structure TextFacts where
  hasToday : Bool
  hasYesterday : Bool
  hasThisWeek : Bool
  hasLastWeek : Bool
  hasThisMonth : Bool
  hasLastMonth : Bool
  relMatch : Option (Nat × Nat)
deriving Repr, DecidableEq

/-- Unit codes for the relative pattern: 0 = day(s), 1 = week(s),
2 = month(s), 3 = year(s) (anything else behaves like the regex's final
alternative, years, matching the source's `else` branch). -/
def unitDays (u : Nat) : Nat :=
  if u = 0 then 1 else if u = 1 then 7 else if u = 2 then 30 else 365

/-- The fields of `datetime.utcnow()` read by `parse_time_constraints`:
the date as an absolute day index, `weekday()` (Monday = 0), the day of the
month (`now.day`, 1-based), and the length of the previous month (needed for
`(now.replace(day=1) - timedelta(days=1)).replace(day=1)`). -/
structure NowInfo where
  day : Int
  weekday : Nat
  dayOfMonth : Nat
  prevMonthLen : Nat
deriving Repr, DecidableEq

/-- Output of `parse_time_constraints`: `time_hint`, the `after` date as a
day index (the source formats it with `strftime("%Y-%m-%d")`), and
`days_ago`.  No branch of the source ever sets `before`. -/
structure TimeConstraint where
  time_hint : String
  afterDay : Int
  days_ago : Nat
deriving Repr, DecidableEq

/-- Translation of the inner helper `get_time_hint_from_days`
(chat.py lines 42-50). -/
def get_time_hint_from_days (days : Nat) : String :=
  if days ≤ 1 then "day"
  else if days ≤ 7 then "week"
  else if days ≤ 30 then "month"
  else "year"

/-- Translation of `parse_time_constraints` (chat.py lines 29-104) over the
regex-match abstraction.  Branches appear in source order; the first match
wins.  `now.replace(day=1)` is `now.day - (dayOfMonth - 1)`. -/
def parse_time_constraints (f : TextFacts) (now : NowInfo) : Option TimeConstraint :=
  if f.hasToday then
    some { time_hint := "day", afterDay := now.day, days_ago := 1 }
  else if f.hasYesterday then
    some { time_hint := "day", afterDay := now.day - 1, days_ago := 1 }
  else if f.hasThisWeek then
    some { time_hint := "week", afterDay := now.day - now.weekday, days_ago := 7 }
  else if f.hasLastWeek then
    some { time_hint := "week", afterDay := now.day - (now.weekday + 7), days_ago := 7 }
  else if f.hasThisMonth then
    some { time_hint := "month", afterDay := now.day - (now.dayOfMonth - 1), days_ago := 30 }
  else if f.hasLastMonth then
    some { time_hint := "month",
           afterDay := now.day - (now.dayOfMonth - 1) - now.prevMonthLen,
           days_ago := 30 }
  else
    match f.relMatch with
    | some (n, u) =>
        let days := n * unitDays u
        some { time_hint := get_time_hint_from_days days,
               afterDay := now.day - days, days_ago := days }
    | none => none

/-! ## Provider policy -/

/-- Translation of `_provider_id_from_model` (chat.py lines 22-26) and the
identical `get_provider_id` (backend/app/routers/chat/providers.py lines
6-18): `.split("/")[0]` (the prefix before the first `/`), then
`.split(":")[0]`, then `.replace("-", "")`. -/
def provider_id_from_model (model_id : String) : String :=
  String.mk ((((model_id.toList.takeWhile (fun c => c ≠ '/')).takeWhile
    (fun c => c ≠ ':')).filter (fun c => c ≠ '-')))

/-- Tool-choice values sent upstream: the strings `"auto"`, `"none"`,
`"required"`, or the forced-function object
`{"type": "function", "function": {"name": <name>}}`. -/
inductive ToolChoiceVal where
  | auto
  | noneTc
  | required
  | function (name : String)
deriving Repr, DecidableEq

/-- Translation of `get_tool_choice_override`
(backend/app/routers/chat/providers.py lines 72-104). -/
def get_tool_choice_override (tool_choice : Option String) (provider : String)
    (tool_names : List String) : ToolChoiceVal :=
  if provider = "xai" ∧ tool_choice ≠ some "auto" ∧ tool_choice ≠ some "none"
      ∧ tool_choice ≠ none then
    .auto
  else
    match tool_choice with
    | some tc =>
      if tc ≠ "" ∧ tc ≠ "auto" ∧ tc ≠ "none" ∧ tc ≠ "required" then
        (if tool_names.contains tc then .function tc else .auto)
      else if tc = "none" then .noneTc
      else if tc = "required" then .required
      else .auto
    | none => .auto

/-- Translation of `should_disable_parallel_tools`
(backend/app/routers/chat/providers.py lines 21-30). -/
def should_disable_parallel_tools (provider : String) : Bool :=
  provider = "anthropic" ∨ provider = "xai"

/-- Translation of `supports_response_format`
(backend/app/routers/chat/providers.py lines 33-43). -/
def supports_response_format (provider : String) : Bool :=
  ¬ provider = "xai"

/-- Translation of `parse_response_format`
(backend/app/routers/chat/parameters.py lines 50-86).  `json.loads` is the
abstract parameter `jparse`. -/
def parse_response_format (jparse : String → Option PyVal)
    (response_format : Option String) (model_id : String) : Option PyVal :=
  match response_format with
  | none => none
  | some rf =>
    if rf = "" then none
    else if provider_id_from_model model_id = "xai" then none
    else
      let rf_text := pyStrip rf
      match jparse rf_text with
      | some (.pydict d) => some (.pydict d)
      | _ =>
        let rf_lower := pyLower rf_text
        if rf_lower = "json" ∨ rf_lower = "json_object" ∨ rf_lower = "jsonobject" then
          some (.pydict [("type", .pystr "json_object")])
        else none

/-! ## Parameter builder (chat.py lines 252-304)

Only the parameter fields that the claims mention are carried; the remaining
pass-through fields (`top_k`, penalties, `seed`, ...) are independent
key-copies of the same shape and do not interact with these. -/

/-- Client-supplied inputs read by the parameter-building section of
`stream_chat.generate` (chat.py lines 252-304). -/
structure ParamsIn where
  model : String
  reasoning_effort : Option String
  response_format : Option String
  stop : Option String
  logprobs : Option Bool
  top_logprobs : Option Int
  logit_bias : Option String
deriving Repr

/-- The corresponding fields of the outgoing upstream `params` dict. -/
structure ParamsOut where
  reasoning : Option String
  response_format : Option PyVal
  stop : Option (List String)
  logprobs : Option Bool
  top_logprobs : Option Int
  logit_bias : Option PyVal
deriving Repr

/-- Translation of `parse_stop_sequences`
(backend/app/routers/chat/parameters.py lines 89-111), which is the same
comma/newline splitting done inline at chat.py lines 285-292. -/
def parse_stop_sequences (stop : Option String) : Option (List String) :=
  match stop with
  | none => none
  | some s =>
    if s = "" then none
    else
      let parts := (s.splitOn ",").flatMap (fun p => p.splitOn "\n")
      let stop_list := (parts.map pyStrip).filter (fun t => t ≠ "")
      if stop_list = [] then none else some stop_list

/-- Translation of the parameter-shaping block of `stream_chat.generate`
(chat.py lines 252-304): reasoning effort, response format (dropped for
providers in `{"xai"}`), stop splitting, logprobs coherence
(`top_logprobs` clamped to `[1,5]` and forcing `logprobs=True`), and
logit-bias JSON parsing (`json.loads` abstracted to `jparse`). -/
def build_params (jparse : String → Option PyVal) (pin : ParamsIn) : ParamsOut :=
  let reasoning :=
    match pin.reasoning_effort with
    | some re => if re ≠ "" ∧ pyLower re ≠ "auto" then some (pyLower re) else none
    | none => none
  let response_format :=
    match pin.response_format with
    | none => none
    | some rf =>
      if rf = "" then none
      else
        let allow := ¬ provider_id_from_model pin.model = "xai"
        if allow then
          let rf_text := pyStrip rf
          match jparse rf_text with
          | some (.pydict d) => some (PyVal.pydict d)
          | _ =>
            let rf_lower := pyLower rf_text
            if rf_lower = "json" ∨ rf_lower = "json_object" ∨ rf_lower = "jsonobject" then
              some (PyVal.pydict [("type", PyVal.pystr "json_object")])
            else none
        else none
  let logprobs0 := pin.logprobs
  let (logprobs, top_logprobs) :=
    match pin.top_logprobs with
    | some t => (some true, some (max 1 (min 5 t)))
    | none => (logprobs0, none)
  let logit_bias :=
    match pin.logit_bias with
    | some lb => if lb ≠ "" then jparse lb else none
    | none => none
  { reasoning := reasoning
    response_format := response_format
    stop := parse_stop_sequences pin.stop
    logprobs := logprobs
    top_logprobs := top_logprobs
    logit_bias := logit_bias }

/-- Translation of the per-iteration `tool_choice` sanitization of
`stream_chat.generate` (chat.py lines 342-370), including the iteration-1
implicit forcing of `search_web` and its xAI skip.  Returns the outgoing
`tool_choice` together with the value `should_force_tools_first_turn` is set
to by this iteration. -/
def chat_call_tool_choice (tool_choice : Option String) (tool_names : List String)
    (iteration : Nat) (implies_needs_tools : Bool) (model : String)
    (should_force_in : Bool) : ToolChoiceVal × Bool :=
  let (tc, should_force) :=
    match tool_choice with
    | some t =>
      if t ≠ "" ∧ t ≠ "auto" ∧ t ≠ "none" then
        if tool_names.contains t then (ToolChoiceVal.function t, true)
        else (ToolChoiceVal.auto, should_force_in)
      else (if t = "none" then ToolChoiceVal.noneTc else ToolChoiceVal.auto,
            should_force_in)
    | none => (ToolChoiceVal.auto, should_force_in)
  let skip_forced_tool_choice := provider_id_from_model model = "xai"
  if iteration = 1 ∧ implies_needs_tools ∧ tool_names.contains "search_web"
      ∧ tc = ToolChoiceVal.auto ∧ ¬ skip_forced_tool_choice then
    (ToolChoiceVal.function "search_web", true)
  else
    (tc, should_force)

/-- Translation of the provider guardrail at chat.py lines 373-375: for
providers in `{"anthropic", "xai"}` the outgoing payload gets
`parallel_tool_calls = False`; otherwise the key is absent. -/
def chat_parallel_tool_calls (model : String) : Option Bool :=
  if provider_id_from_model model = "anthropic" ∨ provider_id_from_model model = "xai" then
    some false
  else none

/-! ## Tool Executor (backend/services/tool_executor.py)

`ToolExecutor.execute` awaits the registered tool under `asyncio.wait_for`.
The awaited call's outcome — a returned value, the timeout, a `TypeError`
(bad keyword binding or a non-numeric `num_results`), or another exception —
is the explicit `CallOutcome` input of the embedded `execute`.  The HTTP
interactions of `_search_web` appear as a `NetOutcome` oracle; exception
message texts produced by the Python runtime are abstract strings. -/

/-- A single-quote character, used in the executor's f-string messages. -/
def sq : String := String.mk [Char.ofNat 39]

/-- Outcome of `await asyncio.wait_for(self.tools[tool_name](**arguments),
timeout=self.timeout)` as observed by `execute`'s `try`. -/
inductive CallOutcome where
  | ok (v : PyVal)
  | timedOut
  | typeErr (msg : String)
  | exn (msg : String)
deriving Repr

/-- Outcome of the search HTTP request made inside `_search_web`'s `try`:
the parsed JSON body of a successful response, an `httpx.HTTPError`, or any
other exception. -/
inductive NetOutcome where
  | ok (body : PyVal)
  | httpErr (msg : String)
  | exn (msg : String)
deriving Repr

/-- The registry built in `ToolExecutor.__init__` (tool_executor.py
lines 28-32). -/
def registryNames : List String := ["search_web", "get_current_time", "calculate"]

/-- The error dictionaries `_search_web` returns from its two `except`
clauses and below (each carries the query). -/
def searchErrDict (msg q : String) : PyVal :=
  .pydict [("error", .pystr msg), ("query", .pystr q)]

/-- One entry of the Brave result loop (tool_executor.py lines 195-202):
`item.get` navigation plus `httpx.URL(url).host` (abstracted to `urlHost`);
a non-dict item or a truthy non-string url raises into the surrounding
`except Exception`. -/
def braveResultItem (urlHost : String → String) (item : PyVal) : Except String PyVal :=
  match item with
  | .pydict d =>
    let url := (dget d "url").getD (.pystr "")
    let title := pyOr ((dget d "title").getD .pynone) url
    let snippet := pyOr ((dget d "snippet").getD .pynone) ((dget d "description").getD (.pystr ""))
    (if truthy url then
        match url with
        | .pystr s => Except.ok (PyVal.pystr (urlHost s))
        | _ => Except.error "TypeError"
      else Except.ok (PyVal.pystr "Brave")).map (fun src =>
      PyVal.pydict [("title", title), ("snippet", snippet), ("url", url), ("source", src)])
  | _ => .error "AttributeError"

/-- The Brave result loop body: each item either contributes an entry or
raises into the surrounding `except Exception`. -/
def brave_items_fold (urlHost : String → String) : List PyVal → Except String (List PyVal)
  | [] => .ok []
  | item :: rest =>
    match braveResultItem urlHost item with
    | .ok r => (brave_items_fold urlHost rest).map (fun more => r :: more)
    | .error e => .error e

/-- The Brave-path navigation `(data or {}).get("web", {})`,
`web.get("results", []) or []`, and the result loop over
`results_json[:num_results]` (tool_executor.py lines 192-202). -/
def brave_results (urlHost : String → String) (data : PyVal) (nr : Nat) :
    Except String (List PyVal) :=
  match (if truthy data then data else .pydict []) with
  | .pydict d =>
    match (dget d "web").getD (.pydict []) with
    | .pydict wd =>
      match pyOr ((dget wd "results").getD (.pylist [])) (.pylist []) with
      | .pylist items => brave_items_fold urlHost (items.take nr)
      | _ => .error "TypeError"
    | _ => .error "AttributeError"
  | _ => .error "AttributeError"

/-- The Brave-path return value (tool_executor.py line 203). -/
def brave_payload (urlHost : String → String) (q : String) (data : PyVal) (nr : Nat) :
    Except String PyVal :=
  (brave_results urlHost data nr).map (fun rs =>
    PyVal.pydict [("query", .pystr q), ("num_results", .pyint rs.length),
                  ("results", .pylist rs), ("provider", .pystr "brave")])

/-- The fallback entry built when DuckDuckGo returned nothing
(tool_executor.py lines 233-239). -/
def ddgDefaultEntry (q : String) : PyVal :=
  .pydict [("title", .pystr "No instant results found"),
           ("snippet", .pystr ("DuckDuckGo did not return instant answers for "
             ++ sq ++ q ++ sq ++ ".")),
           ("url", .pystr ("https://duckduckgo.com/?q=" ++ q)),
           ("source", .pystr "DuckDuckGo")]

/-- The `RelatedTopics` loop (tool_executor.py lines 225-232): only dict
topics containing `"Text"` contribute; slicing a non-string `Text` with
`[:100]` raises into the surrounding `except Exception`. -/
def ddg_topics_fold : List PyVal → Except String (List PyVal)
  | [] => .ok []
  | t :: ts =>
    match t with
    | .pydict td =>
      if hasKey td "Text" then
        match dgetD td "Text" with
        | .pystr s =>
          (ddg_topics_fold ts).map (fun more =>
            PyVal.pydict [("title", .pystr (pyTake 100 s)), ("snippet", .pystr s),
                          ("url", (dget td "FirstURL").getD (.pystr "")),
                          ("source", .pystr "DuckDuckGo")] :: more)
        | _ => .error "TypeError"
      else ddg_topics_fold ts
    | _ => ddg_topics_fold ts

/-- The instant-answer entry list (tool_executor.py lines 218-224): one
entry when `AbstractText` is truthy, else none. -/
def ddg_first (q : String) (d : List (String × PyVal)) : List PyVal :=
  if truthy (dgetD d "AbstractText") then
    [.pydict [("title", (dget d "Heading").getD (.pystr q)),
              ("snippet", (dget d "AbstractText").getD (.pystr "")),
              ("url", (dget d "AbstractURL").getD (.pystr "")),
              ("source", (dget d "AbstractSource").getD (.pystr "DuckDuckGo"))]]
  else []

/-- The DuckDuckGo return value (tool_executor.py lines 233-240): the
no-result fallback, `num_results = len(results)` but `results` sliced to
`[:num_results]`. -/
def ddg_assemble (q : String) (nr : Nat) (first more : List PyVal) : PyVal :=
  let results := first ++ more
  let results := if results.isEmpty then [ddgDefaultEntry q] else results
  .pydict [("query", .pystr q), ("num_results", .pyint results.length),
           ("results", .pylist (results.take nr)), ("provider", .pystr "duckduckgo")]

/-- The DuckDuckGo-path body (tool_executor.py lines 216-240): abstract
answer, related topics limited to `num_results - len(results)`, then the
assembled payload. -/
def ddg_payload (q : String) (data : PyVal) (nr : Nat) : Except String PyVal :=
  match data with
  | .pydict d =>
    match (dget d "RelatedTopics").getD (.pylist []) with
    | .pylist topics =>
      (ddg_topics_fold (topics.take (nr - (ddg_first q d).length))).map
        (ddg_assemble q nr (ddg_first q d))
    | _ => .error "TypeError"
  | _ => .error "AttributeError"

/-- The `try` body of `_search_web` (tool_executor.py lines 171-251): Brave
when a key is configured, DuckDuckGo otherwise; `httpx.HTTPError` and other
exceptions map to the two error dictionaries. -/
def search_try (braveKey : Bool) (net : NetOutcome) (urlHost : String → String)
    (q : String) (nr : Nat) : PyVal :=
  match net with
  | .httpErr m => searchErrDict ("Search failed: " ++ m) q
  | .exn m => searchErrDict ("Unexpected error during search: " ++ m) q
  | .ok data =>
    match (if braveKey then brave_payload urlHost q data nr else ddg_payload q data nr) with
    | .ok p => p
    | .error em => searchErrDict ("Unexpected error during search: " ++ em) q

/-- Translation of `_search_web` including Python keyword binding of
`(query, num_results=3, time_hint=None, after=None, before=None)`
(tool_executor.py lines 151-251).  A falsy or whitespace query returns the
empty-query error before any network call; a truthy non-string query raises
`AttributeError` from `query.strip()`; a non-numeric `num_results` raises
`TypeError` from `min(5, num_results)` (Python `bool` counts as an int). -/
def search_web_body (braveKey : Bool) (net : NetOutcome) (urlHost : String → String)
    (q : String) (args : List (String × PyVal)) : CallOutcome :=
  if pyStrip q = "" then .ok (.pydict [("error", .pystr "Query cannot be empty")])
  else
    match dget args "num_results" with
    | none => .ok (search_try braveKey net urlHost q (Int.toNat (max 1 (min 5 3))))
    | some (.pyint n) => .ok (search_try braveKey net urlHost q (Int.toNat (max 1 (min 5 n))))
    | some (.pybool b) =>
      .ok (search_try braveKey net urlHost q (Int.toNat (max 1 (min 5 (if b then (1 : Int) else 0)))))
    | some _ => .typeErr "unsupported operand types for min"

def search_web_call (braveKey : Bool) (net : NetOutcome) (urlHost : String → String)
    (args : List (String × PyVal)) : CallOutcome :=
  if ¬ args.all (fun p => ["query", "num_results", "time_hint", "after", "before"].contains p.1) then
    .typeErr "got an unexpected keyword argument"
  else if ¬ hasKey args "query" then
    .typeErr "missing 1 required positional argument: query"
  else if ¬ truthy (dgetD args "query") then
    .ok (.pydict [("error", .pystr "Query cannot be empty")])
  else
    match dgetD args "query" with
    | .pystr q => search_web_body braveKey net urlHost q args
    | _ => .exn "AttributeError"

/-- What `datetime.now(UTC)` and its formatting produce inside
`_get_current_time`, abstracted to the returned strings. -/
inductive ClockOutcome where
  | ok (iso : String) (unix : Int) (formatted : String) (date : String) (time : String)
  | exn (msg : String)
deriving Repr

/-- Translation of `_get_current_time` (tool_executor.py lines 253-277);
only the keyword `timezone` is accepted (its value is ignored, the tool
always reports UTC). -/
def get_current_time_call (clock : ClockOutcome) (args : List (String × PyVal)) :
    CallOutcome :=
  if ¬ args.all (fun p => ["timezone"].contains p.1) then
    .typeErr "got an unexpected keyword argument"
  else
    match clock with
    | .ok iso unix formatted date time =>
      .ok (.pydict [("timestamp", .pystr iso), ("timezone", .pystr "UTC"),
                    ("unix_timestamp", .pyint unix), ("formatted", .pystr formatted),
                    ("date", .pystr date), ("time", .pystr time)])
    | .exn m => .ok (.pydict [("error", .pystr ("Failed to get time: " ++ m))])

/-- Outcome of the AST parse/evaluation inside `_calculate`: the resulting
value (with the repr used in `formatted`), a `SyntaxError`, a
`ZeroDivisionError`, or another exception. -/
inductive CalcOutcome where
  | value (v : PyVal) (valueRepr : String)
  | syntaxErr
  | zeroDiv
  | exn (msg : String)
deriving Repr

/-- Translation of `_calculate` (tool_executor.py lines 279-334); the
`ast.parse` / `_eval_ast_node` pipeline is abstracted to its outcome. -/
def calculate_call (co : CalcOutcome) (args : List (String × PyVal)) : CallOutcome :=
  if ¬ args.all (fun p => ["expression"].contains p.1) then
    .typeErr "got an unexpected keyword argument"
  else if ¬ hasKey args "expression" then
    .typeErr "missing 1 required positional argument: expression"
  else if ¬ truthy (dgetD args "expression") then
    .ok (.pydict [("error", .pystr "Expression cannot be empty")])
  else
      match dgetD args "expression" with
      | .pystr ex =>
        if pyStrip ex = "" then .ok (.pydict [("error", .pystr "Expression cannot be empty")])
        else
          match co with
          | .value v vr =>
            .ok (.pydict [("expression", .pystr ex), ("result", v),
                          ("formatted", .pystr (ex ++ " = " ++ vr))])
          | .syntaxErr =>
            .ok (.pydict [("error", .pystr ("Invalid mathematical expression: "
                           ++ sq ++ ex ++ sq)), ("expression", .pystr ex)])
          | .zeroDiv =>
            .ok (.pydict [("error", .pystr "Division by zero"), ("expression", .pystr ex)])
          | .exn m =>
            .ok (.pydict [("error", .pystr ("Calculation failed: " ++ m)),
                          ("expression", .pystr ex),
                          ("hint", .pystr "Only basic arithmetic is supported: +, -, *, /, **")])
      | _ => .exn "AttributeError"

/-- Translation of `ToolExecutor.execute` (tool_executor.py lines 102-149):
unknown names short-circuit; otherwise the awaited call's outcome is turned
into the uniform envelope.  A completed dict result whose `error` key is
truthy is surfaced as a failure carrying both the error and the original
payload; any other completed value is a success. -/
def execute (tool_name : String) (out : CallOutcome) : PyVal :=
  if ¬ registryNames.contains tool_name then
    .pydict [("success", .pybool false),
             ("error", .pystr ("Unknown tool: " ++ tool_name
               ++ ". Available tools: search_web, get_current_time, calculate"))]
  else
    match out with
    | .ok v =>
      match v with
      | .pydict d =>
        if truthy (dgetD d "error") then
          .pydict [("success", .pybool false), ("error", .pystr (pyStr (dgetD d "error"))),
                   ("result", .pydict d)]
        else .pydict [("success", .pybool true), ("result", .pydict d)]
      | _ => .pydict [("success", .pybool true), ("result", v)]
    | .timedOut =>
      .pydict [("success", .pybool false),
               ("error", .pystr ("Tool " ++ sq ++ tool_name ++ sq
                 ++ " timed out after 7.5 seconds"))]
    | .typeErr m =>
      .pydict [("success", .pybool false),
               ("error", .pystr ("Invalid arguments for " ++ sq ++ tool_name ++ sq
                 ++ ": " ++ m))]
    | .exn m =>
      .pydict [("success", .pybool false),
               ("error", .pystr ("Tool " ++ sq ++ tool_name ++ sq ++ " failed: " ++ m))]

/-- The call outcomes the registered tools can actually produce: each tool's
translated body over arbitrary oracle inputs, or the `asyncio.wait_for`
timeout. -/
inductive Reachable : String → List (String × PyVal) → CallOutcome → Prop where
  | search (braveKey : Bool) (net : NetOutcome) (urlHost : String → String)
      (args : List (String × PyVal)) :
      Reachable "search_web" args (search_web_call braveKey net urlHost args)
  | clock (c : ClockOutcome) (args : List (String × PyVal)) :
      Reachable "get_current_time" args (get_current_time_call c args)
  | calcTool (c : CalcOutcome) (args : List (String × PyVal)) :
      Reachable "calculate" args (calculate_call c args)
  | timeout (name : String) (args : List (String × PyVal)) :
      registryNames.contains name → Reachable name args .timedOut

/-- The `success` field of a result envelope. -/
def envSuccess (v : PyVal) : PyVal :=
  match v with
  | .pydict d => dgetD d "success"
  | _ => .pynone

/-- The `error` field of a result envelope or tool payload. -/
def envError (v : PyVal) : PyVal :=
  match v with
  | .pydict d => dgetD d "error"
  | _ => .pynone

/-- The `result` field of a result envelope. -/
def envResult (v : PyVal) : Option PyVal :=
  match v with
  | .pydict d => dget d "result"
  | _ => none

/-- The length of the `results` list of a search payload (0 when absent). -/
def resultsLen (v : PyVal) : Nat :=
  match v with
  | .pydict d =>
    match dget d "results" with
    | some (.pylist rs) => rs.length
    | _ => 0
  | _ => 0

/-- A dict either lacks the `error` key or holds a truthy value there (the
property every registered tool's returned dict satisfies: all its error
messages are nonempty string literals or literal-prefixed f-strings). -/
def errorKeyOk (v : PyVal) : Prop :=
  match v with
  | .pydict d => hasKey d "error" = true → truthy (dgetD d "error") = true
  | _ => True

/-! ## Chat orchestration (`stream_chat.generate`, chat.py lines 179-764)

The async generator is embedded as a function from a configuration and an
oracle (upstream stream contents, completion outcomes, tool-executor
results) to the list of instrumented actions it performs — SSE emissions
plus `tool_executor.execute` invocations — together with the final
`messages` list.  `svc.stream_events` / `svc.completion` /
`svc.stream_completion` outcomes are per-iteration oracle entries; a raised
exception is an `Except.error` / `Option.some` raise marker. -/

/-- A completed tool call as assembled by the V2 streaming loop (chat.py
lines 402-407), and the normalized call info of the legacy `tool_calls`
event. -/
structure CompletedCall where
  id : String
  name : String
  arguments : String
deriving Repr, DecidableEq

/-- A tool call of a legacy (non-streaming) completion message; `id` is
`none` when the upstream omitted it (`tc.get("id", "unknown")` applies the
default). -/
structure LegacyCall where
  id : Option String
  name : String
  arguments : String
deriving Repr, DecidableEq

/-- The fields of a legacy completion message the loop reads: the reasoning
segments extracted and split at chat.py lines 538-576 (that extraction is
abstracted to the list of segments emitted), the `tool_calls` list, and the
`_content_to_text` extraction of `content`. -/
structure LegacyMsg where
  reasoningSegs : List String
  tool_calls : List LegacyCall
  content : String
deriving Repr

/-- Conversation messages (`messages` in chat.py).  Tool-message content
records the value handed to `json.dumps`. -/
inductive Msg where
  | systemMsg (s : String)
  | userMsg (s : String)
  | assistantCalls (calls : List CompletedCall)
  | assistantLegacy (m : LegacyMsg)
  | toolMsg (tool_call_id : String) (content : PyVal)
deriving Repr

/-- Downstream SSE frames.  `rawError` is the type-less `{"error": ...}`
frame emitted by the tools-JSON validation (chat.py lines 218, 228). -/
inductive DEvent where
  | warning (message : String) (code : Option String)
  | doneEv
  | errorEv (msg : String)
  | rawError (msg : String)
  | reasoningEv (s : String)
  | contentEv (s : String)
  | toolCallsEv (calls : List CompletedCall)
  | toolExecuting (id name category visibility : String)
  | toolResult (id name : String) (result : PyVal) (category visibility : String)
  | debugEv (msg : String)
deriving Repr

/-- Instrumented actions: an SSE emission or a `tool_executor.execute`
invocation (recording that the tool backend was contacted). -/
inductive Action where
  | emit (e : DEvent)
  | execCall (name : String) (args : PyVal)
deriving Repr

/-- Normalized upstream events as yielded by
`OpenRouterService.stream_events`; `id`/`name` use `""` for an absent or
`None` field (both are falsy in the source's checks), `arguments` is `none`
when the field is absent or not a string. -/
inductive UEvent where
  | reasoningU (content : String)
  | toolCallDelta (index : Nat) (id : String) (name : String) (arguments : Option String)
  | contentDelta (content : String)
  | doneU
  | otherU
deriving Repr

/-- Translation of `_tool_metadata` (chat.py lines 107-122):
category × visibility. -/
def tool_metadata (name : String) : String × String :=
  let n := pyLower name
  if n = "search_web" then ("search", "primary")
  else if n = "get_current_time" ∨ n = "calculate" then ("utility", "hidden")
  else ("other", "secondary")

/-- The canonical search key of chat.py lines 460-464 (the source
serializes it with `json.dumps(..., sort_keys=True)`, which is injective on
these four strings). -/
structure CanonKey where
  q : String
  after : String
  before : String
  hint : String
deriving Repr, DecidableEq

/-- Translation of the canonicalization at chat.py lines 460-464.  A truthy
non-string `query` raises (`.strip()`) into the enclosing `except`; the
`str(... or "")` coercions of the other fields are total. -/
def canon_key (d : List (String × PyVal)) : Except String CanonKey :=
  match pyOr (dgetD d "query") (.pystr "") with
  | .pystr s =>
    .ok { q := pyLower (pyStrip s),
          after := pyStrip (pyStr (pyOr (dgetD d "after") (.pystr ""))),
          before := pyStrip (pyStr (pyOr (dgetD d "before") (.pystr ""))),
          hint := pyLower (pyStrip (pyStr (pyOr (dgetD d "time_hint") (.pystr "")))) }
  | _ => .error "AttributeError"

/-- The request-scoped search dedupe state (chat.py lines 308-311). -/
structure SearchState where
  cache : List (CanonKey × PyVal)
  uniqueCount : Nat
  clampWarningSent : Bool
deriving Repr

/-- `search_clamp_limit = 6` (chat.py line 310). -/
def search_clamp_limit : Nat := 6

/-- The clamp error result (chat.py line 473). -/
def clampErrorResult : PyVal :=
  .pydict [("success", .pybool false), ("error", .pystr "Search trimmed by clamp (6)")]

def cacheFind (cache : List (CanonKey × PyVal)) (k : CanonKey) : Option PyVal :=
  (cache.find? (fun p => p.1 = k)).map (fun p => p.2)

/-- Result of one pass through the dedupe/clamp block: the tool result, the
updated state, whether the one-shot TOOL_CLAMP warning fires now, and
whether `tool_executor.execute` was invoked. -/
structure StepOut where
  result : PyVal
  st : SearchState
  warnNow : Bool
  calledExec : Bool
deriving Repr

/-- Translation of the dedupe/clamp block body (chat.py lines 466-478):
cache hit returns the cached result; at or above the clamp limit a clamp
error is returned (flagging the warning the first time); otherwise the
executor result (`execResult`) is used and cached — with the unique count
incremented — only when it is truthy with a truthy `success`. -/
def search_step (st : SearchState) (key : CanonKey) (execResult : PyVal) : StepOut :=
  match cacheFind st.cache key with
  | some r => ⟨r, st, false, false⟩
  | none =>
    if st.uniqueCount ≥ search_clamp_limit then
      ⟨clampErrorResult, { st with clampWarningSent := true }, !st.clampWarningSent, false⟩
    else
      let st' :=
        if truthy execResult ∧ truthy (envSuccess execResult) then
          { st with cache := (key, execResult) :: st.cache, uniqueCount := st.uniqueCount + 1 }
        else st
      ⟨execResult, st', false, true⟩

/-- Translation of `try: func_args = json.loads(...) except: func_args = {}`
(chat.py lines 437-440). -/
def parse_args (jparse : String → Option PyVal) (s : String) : PyVal :=
  match jparse s with
  | some v => v
  | none => .pydict []

/-- Translation of the `search_web` argument enrichment (chat.py lines
442-452): inject `time_hint` and `after` from the Time-Constraint Parser for
keys the model did not supply (the parser never produces `before`; the whole
block is wrapped in `try/except pass`, so a non-dict `func_args` is left
unchanged). -/
def enrich_args (tc : Option TimeConstraint) (fmtDate : Int → String) (fa : PyVal) : PyVal :=
  match tc with
  | none => fa
  | some t =>
    match fa with
    | .pydict d =>
      let d1 := if hasKey d "time_hint" then d
        else if truthy (.pystr t.time_hint) then d ++ [("time_hint", .pystr t.time_hint)] else d
      let d2 := if hasKey d1 "after" then d1
        else if truthy (.pystr (fmtDate t.afterDay)) then d1 ++ [("after", .pystr (fmtDate t.afterDay))] else d1
      .pydict d2
    | v => v

/-- The value handed to `json.dumps` for the tool message (chat.py lines
486-489): `result["result"]` (default `{}`) on success, else
`{"error": result.get("error", "Tool execution failed")}`. -/
def tool_msg_content (result : PyVal) : PyVal :=
  if truthy (envSuccess result) then (envResult result).getD (.pydict [])
  else
    .pydict [("error",
      (match result with
       | .pydict d => (dget d "error").getD (.pystr "Tool execution failed")
       | _ => .pystr "Tool execution failed"))]

/-- The user nudge appended before finalization (chat.py line 494 / 671). -/
def nudgeText : String := "Please use the tool results above to answer my original question."

/-- Per-iteration oracle for `svc.stream_events` in the V2 branch: the
events it yields, and an exception it raises after them (surfacing only when
the consumer exhausts the stream without breaking). -/
structure V2Turn where
  events : List UEvent
  streamRaise : Option String

/-- Per-iteration oracle for the V2 finalization (chat.py lines 496-521):
the non-streaming completion outcome (exception or extracted content text)
and the `stream_completion` fallback (chunks, then an optional raise). -/
structure V2Finalize where
  completionOutcome : Except String String
  fallbackChunks : List String
  fallbackRaise : Option String

/-- Per-iteration oracle for the legacy finalization (chat.py lines
675-716), whose fallback consumes `svc.stream_events`. -/
structure LegacyFinalize where
  completionOutcome : Except String String
  fallbackEvents : List UEvent
  fallbackRaise : Option String

/-- The full request oracle.  `exec k` is the envelope returned by the k-th
`tool_executor.execute` invocation (always a dict: see `execute` above). -/
structure Oracle where
  v2Turn : Nat → V2Turn
  v2Fin : Nat → V2Finalize
  legacyTurn : Nat → Except String LegacyMsg
  legacyFin : Nat → LegacyFinalize
  exec : Nat → List (String × PyVal)
  plainChunks : List String
  plainRaise : Option String

/-- Outcome of parsing the `tools` query parameter (chat.py lines 210-229):
absent, invalid JSON, not a list, or parsed with the collected function
names (`nonEmpty` is the truthiness of the parsed list, which decides
whether a `ToolExecutor` is created and the tool loop entered). -/
inductive ToolsParam where
  | absent
  | invalidJson (msg : String)
  | notList
  | parsed (nonEmpty : Bool) (names : List String)

/-- Request configuration: the query parameters and environment the
orchestration reads, with `json.loads` (`jparse`), `strftime` (`fmtDate`),
the prompt-keyword scan of chat.py lines 324-338 (`promptKeywordHit`) and
the regex facts for the Time-Constraint Parser abstracted. -/
structure Cfg where
  toolLoopV2 : Bool
  apiKey : Bool
  systemPrompt : Option String
  prompt : String
  toolsParam : ToolsParam
  tool_choice : Option String
  max_tool_calls : Nat
  model : String
  promptKeywordHit : Bool
  textFacts : TextFacts
  now : NowInfo
  fmtDate : Int → String
  jparse : String → Option PyVal

/-- Mutable loop state: `messages`, `sent_any_content`, the search dedupe
state, the executor-invocation counter (oracle index), and
`should_force_tools_first_turn`. -/
structure LoopState where
  messages : List Msg
  sentAny : Bool
  search : SearchState
  execCtr : Nat
  shouldForce : Bool

/-- Result of consuming the V2 upstream stream (chat.py lines 383-418):
emitted actions, the final `sent_any_content`, the completed call if the
loop broke on one, and whether the stream was exhausted (so that a pending
exception from the upstream generator surfaces). -/
structure ConsumeOut where
  acts : List Action
  contentSent : Bool
  completed : Option CompletedCall
  exhausted : Bool

/-- A per-index tool-call builder (chat.py line 390): initialized with the
event's id, empty name and arguments; `""` stands for the falsy
`None`/empty values the source checks with truthiness. -/
structure Builder where
  id : String
  name : String
  arguments : String
deriving Repr

def buildersGet (bs : List (Nat × Builder)) (i : Nat) : Option Builder :=
  (bs.find? (fun p => p.1 = i)).map (fun p => p.2)

def buildersSet (bs : List (Nat × Builder)) (i : Nat) (b : Builder) : List (Nat × Builder) :=
  if (bs.find? (fun p => p.1 = i)).isSome then
    bs.map (fun p => if p.1 = i then (i, b) else p)
  else bs ++ [(i, b)]

/-- Translation of the V2 streaming consumption (chat.py lines 379-418):
reasoning and content deltas are emitted immediately; tool-call deltas are
aggregated per index, and the loop breaks as soon as a builder has a truthy
name, truthy arguments, and JSON-parsable arguments (synthesizing
`call_<index>_<iteration>` when the id is falsy). -/
def v2_consume (jparse : String → Option PyVal) (iteration : Nat) :
    List UEvent → List (Nat × Builder) → Bool → ConsumeOut
  | [], _, sent => ⟨[], sent, none, true⟩
  | ev :: rest, builders, sent =>
    match ev with
    | .reasoningU s =>
      let o := v2_consume jparse iteration rest builders sent
      { o with acts := .emit (.reasoningEv s) :: o.acts }
    | .contentDelta s =>
      let o := v2_consume jparse iteration rest builders true
      { o with acts := .emit (.contentEv s) :: o.acts }
    | .doneU => ⟨[], sent, none, false⟩
    | .otherU => v2_consume jparse iteration rest builders sent
    | .toolCallDelta idx evId evName evArgs =>
      let b0 := (buildersGet builders idx).getD ⟨evId, "", ""⟩
      let b1 := if evId ≠ "" ∧ b0.id = "" then { b0 with id := evId } else b0
      let b2 := if evName ≠ "" then { b1 with name := evName } else b1
      let b3 := match evArgs with
                | some s => { b2 with arguments := b2.arguments ++ s }
                | none => b2
      let builders' := buildersSet builders idx b3
      if b3.name ≠ "" ∧ b3.arguments ≠ "" ∧ (jparse b3.arguments).isSome then
        let cid := if b3.id ≠ "" then b3.id
                   else "call_" ++ toString idx ++ "_" ++ toString iteration
        ⟨[], sent, some ⟨cid, b3.name, b3.arguments⟩, false⟩
      else v2_consume jparse iteration rest builders' sent

/-- The execute-with-dedupe block shared by chat.py lines 457-482 (V2,
`guardActive = True`) and 620-645 (legacy, where the guard is the — there
false — `tool_loop_v2` flag): `search_web` goes through canonicalization and
`search_step`; when the guard is off or canonicalization raises into the
`except`, the executor is invoked directly.  Returns the emitted actions,
the result, and the updated search state and oracle counter. -/
def run_tool (guardActive : Bool) (orc : Oracle) (name : String) (funcArgs : PyVal)
    (search : SearchState) (execCtr : Nat) :
    List Action × PyVal × SearchState × Nat :=
  if guardActive ∧ name = "search_web" then
    match (match funcArgs with
           | .pydict d => canon_key d
           | _ => Except.error "AttributeError") with
    | .ok key =>
      let so := search_step search key (PyVal.pydict (orc.exec execCtr))
      let acts :=
        (if so.warnNow then
          [Action.emit (.warning ("Trimmed tool calls to " ++ toString search_clamp_limit)
            (some "TOOL_CLAMP"))]
         else [])
        ++ (if so.calledExec then [Action.execCall name funcArgs] else [])
      (acts, so.result, so.st, execCtr + (if so.calledExec then 1 else 0))
    | .error _ =>
      ([Action.execCall name funcArgs], PyVal.pydict (orc.exec execCtr), search, execCtr + 1)
  else
    ([Action.execCall name funcArgs], PyVal.pydict (orc.exec execCtr), search, execCtr + 1)

/-- How a loop iteration leaves the `while`. -/
inductive TurnExit where
  | brk
  | contT
  | raisedE (msg : String)

/-- Actions, updated state and exit mode of one iteration. -/
structure TurnOut where
  acts : List Action
  st : LoopState
  exit : TurnExit

/-- The V2 streaming-finalization fallback (chat.py lines 512-521):
`stream_completion` chunks are emitted as content; an exception is caught,
emitting the error frame; both paths `break`. -/
def v2_fallback (acts : List Action) (st : LoopState) (fin : V2Finalize) : TurnOut :=
  let chunkActs := fin.fallbackChunks.map (fun ch => Action.emit (.contentEv ch))
  let sent' := st.sentAny || !fin.fallbackChunks.isEmpty
  match fin.fallbackRaise with
  | some m =>
    ⟨acts ++ chunkActs ++ [.emit (.errorEv ("Streaming finalization failed: " ++ m))],
     { st with sentAny := sent' }, .brk⟩
  | none => ⟨acts ++ chunkActs, { st with sentAny := sent' }, .brk⟩

/-- One iteration of the V2 streaming branch (chat.py lines 377-530).  Every
control path of this branch leaves the `while` via `break`, or via the
uncaught exception of `svc.stream_events` (chat.py line 383). -/
def v2_turn (cfg : Cfg) (orc : Oracle) (iteration : Nat) (st : LoopState) : TurnOut :=
  let turn := orc.v2Turn iteration
  let c := v2_consume cfg.jparse iteration turn.events [] st.sentAny
  match c.completed with
  | none =>
    (match (if c.exhausted then turn.streamRaise else none) with
     | some m => ⟨c.acts, { st with sentAny := c.contentSent }, .raisedE m⟩
     | none =>
       if c.contentSent then ⟨c.acts, { st with sentAny := c.contentSent }, .brk⟩
       else
         ⟨c.acts ++ [.emit (.contentEv "No additional content generated.")],
          { st with sentAny := true }, .brk⟩)
  | some call =>
    let actsA := c.acts ++ [.emit (.toolCallsEv [call])]
    let msgs1 := st.messages ++ [Msg.assistantCalls [call]]
    let funcArgs0 := parse_args cfg.jparse call.arguments
    let hint := parse_time_constraints cfg.textFacts cfg.now
    let funcArgs := if call.name = "search_web" then enrich_args hint cfg.fmtDate funcArgs0
                    else funcArgs0
    let meta := tool_metadata call.name
    let actsB := actsA ++ [.emit (.toolExecuting call.id call.name meta.1 meta.2)]
    let r := run_tool true orc call.name funcArgs st.search st.execCtr
    let result := r.2.1
    let actsC := actsB ++ r.1 ++ [.emit (.toolResult call.id call.name result meta.1 meta.2)]
    let msgs2 := msgs1 ++ [Msg.toolMsg call.id (tool_msg_content result), Msg.userMsg nudgeText]
    let stMid : LoopState :=
      { messages := msgs2, sentAny := c.contentSent, search := r.2.2.1,
        execCtr := r.2.2.2, shouldForce := st.shouldForce }
    let fin := orc.v2Fin iteration
    match fin.completionOutcome with
    | .ok content =>
      if content ≠ "" then
        ⟨actsC ++ [.emit (.contentEv content)], { stMid with sentAny := true }, .brk⟩
      else v2_fallback actsC stMid fin
    | .error m =>
      v2_fallback (actsC ++ [.emit (.debugEv ("Non-streaming finalization failed: " ++ m))])
        stMid fin

/-- The per-call execution loop of the legacy branch (chat.py lines
593-666). -/
def legacy_calls_fold (cfg : Cfg) (orc : Oracle) :
    List LegacyCall → LoopState → List Action × LoopState
  | [], st => ([], st)
  | tc :: rest, st =>
    let cid := tc.id.getD "unknown"
    let meta := tool_metadata tc.name
    let funcArgs0 := parse_args cfg.jparse tc.arguments
    let hint := parse_time_constraints cfg.textFacts cfg.now
    let funcArgs := if tc.name = "search_web" then enrich_args hint cfg.fmtDate funcArgs0
                    else funcArgs0
    let r := run_tool cfg.toolLoopV2 orc tc.name funcArgs st.search st.execCtr
    let result := r.2.1
    let a := [Action.emit (.toolExecuting cid tc.name meta.1 meta.2)] ++ r.1
             ++ [Action.emit (.toolResult cid tc.name result meta.1 meta.2)]
    let st' : LoopState :=
      { st with
        messages := st.messages ++ [Msg.toolMsg cid (tool_msg_content result)]
        search := r.2.2.1
        execCtr := r.2.2.2 }
    let o := legacy_calls_fold cfg orc rest st'
    (a ++ o.1, o.2)

/-- Result of consuming the legacy finalization fallback stream (chat.py
lines 703-713): actions, whether content was yielded, and whether the
stream was exhausted (letting a pending raise surface). -/
structure LegacyFbOut where
  acts : List Action
  sentAdd : Bool
  exhausted : Bool

def legacy_fallback_consume : List UEvent → LegacyFbOut
  | [] => ⟨[], false, true⟩
  | ev :: rest =>
    match ev with
    | .reasoningU s =>
      let o := legacy_fallback_consume rest
      { o with acts := .emit (.reasoningEv s) :: o.acts }
    | .contentDelta s =>
      let o := legacy_fallback_consume rest
      { o with acts := .emit (.contentEv s) :: o.acts, sentAdd := true }
    | .doneU => ⟨[], false, false⟩
    | _ => legacy_fallback_consume rest

/-- The legacy finalization fallback and post-fallback handling (chat.py
lines 700-721): a caught stream exception emits the error frame and breaks
immediately; otherwise the no-content fallback frame may be emitted before
the `break`. -/
def legacy_finalize_fallback (acts : List Action) (st : LoopState) (fin : LegacyFinalize) :
    TurnOut :=
  let f := legacy_fallback_consume fin.fallbackEvents
  let sent1 := st.sentAny || f.sentAdd
  match (if f.exhausted then fin.fallbackRaise else none) with
  | some m =>
    ⟨acts ++ f.acts ++ [.emit (.errorEv ("Streaming finalization failed: " ++ m))],
     { st with sentAny := sent1 }, .brk⟩
  | none =>
    if ¬ sent1 then
      ⟨acts ++ f.acts ++ [.emit (.contentEv "No additional content generated.")],
       { st with sentAny := true }, .brk⟩
    else ⟨acts ++ f.acts, { st with sentAny := sent1 }, .brk⟩

/-- One iteration of the legacy (non-streaming) branch (chat.py lines
531-746).  The `svc.completion` exception at line 532 is not caught
locally; the content-less and forced-tool suppression paths `continue`. -/
def legacy_turn (cfg : Cfg) (orc : Oracle) (iteration : Nat) (st : LoopState) : TurnOut :=
  match orc.legacyTurn iteration with
  | .error m => ⟨[], st, .raisedE m⟩
  | .ok msg =>
    let rActs := msg.reasoningSegs.map (fun s => Action.emit (.reasoningEv s))
    if msg.tool_calls ≠ [] then
      let info := msg.tool_calls.map
        (fun tc => CompletedCall.mk (tc.id.getD "unknown") tc.name tc.arguments)
      let a1 := rActs ++ [Action.emit (.toolCallsEv info)]
      let st1 := { st with messages := st.messages ++ [Msg.assistantLegacy msg] }
      let o := legacy_calls_fold cfg orc msg.tool_calls st1
      let st3 := { o.2 with messages := o.2.messages ++ [Msg.userMsg nudgeText] }
      let fin := orc.legacyFin iteration
      match fin.completionOutcome with
      | .ok content =>
        if content ≠ "" then
          ⟨a1 ++ o.1 ++ [.emit (.contentEv content)], { st3 with sentAny := true }, .brk⟩
        else legacy_finalize_fallback (a1 ++ o.1) st3 fin
      | .error m =>
        legacy_finalize_fallback
          (a1 ++ o.1 ++ [.emit (.debugEv ("Non-streaming finalization failed: " ++ m))])
          st3 fin
    else
      let content := msg.content
      let anyTools := st.messages.any
        (fun m => match m with | .toolMsg _ _ => true | _ => false)
      if content ≠ "" then
        if iteration = 2 ∧ ¬ anyTools ∧ st.shouldForce then
          ⟨rActs, { st with messages := st.messages ++ [Msg.assistantLegacy msg] }, .contT⟩
        else ⟨rActs ++ [.emit (.contentEv content)], { st with sentAny := true }, .brk⟩
      else
        if iteration ≤ 2 ∧ ¬ anyTools then
          ⟨rActs, { st with messages := st.messages ++ [Msg.assistantLegacy msg] }, .contT⟩
        else
          ⟨rActs ++ [.emit (.contentEv "No additional content generated.")],
           { st with sentAny := true }, .brk⟩

/-- How the tool loop ended: normally (with its final state and iteration
count), or with an uncaught exception. -/
inductive LoopEnd where
  | normal (st : LoopState) (iteration : Nat)
  | raisedE (msg : String) (st : LoopState)

/-- The `while iteration < limit` tool loop (chat.py lines 317-746).  The
fuel argument is `limit - iteration`.  The per-iteration `tool_choice`
computation (lines 342-370) is run for its `should_force_tools_first_turn`
update; the V2 branch never continues, the legacy branch continues only
from the two suppression paths. -/
def tool_loop (cfg : Cfg) (orc : Oracle) (names : List String) :
    Nat → Nat → LoopState → List Action × LoopEnd
  | 0, iteration, st => ([], .normal st iteration)
  | fuel + 1, iteration, st =>
    let it := iteration + 1
    let implies := names.contains "search_web"
      ∧ (cfg.promptKeywordHit ∨ (parse_time_constraints cfg.textFacts cfg.now).isSome)
    let sf := (chat_call_tool_choice cfg.tool_choice names it implies cfg.model
      st.shouldForce).2
    let st0 := { st with shouldForce := sf }
    if cfg.toolLoopV2 then
      let o := v2_turn cfg orc it st0
      match o.exit with
      | .brk => (o.acts, .normal o.st it)
      | .contT => (o.acts, .normal o.st it)
      | .raisedE m => (o.acts, .raisedE m o.st)
    else
      let o := legacy_turn cfg orc it st0
      match o.exit with
      | .brk => (o.acts, .normal o.st it)
      | .contT =>
        let rest := tool_loop cfg orc names fuel it o.st
        (o.acts ++ rest.1, rest.2)
      | .raisedE m => (o.acts, .raisedE m o.st)

/-- Translation of `stream_chat.generate` (chat.py lines 179-764) to its
instrumented action list and final message list.  The `done` frame is the
last statement of the outer `try`; the `except` emits only the `error`
frame; early returns (missing API key, tools validation) are before the
`try`. -/
def generate (cfg : Cfg) (orc : Oracle) : List Action × List Msg :=
  if ¬ cfg.apiKey then
    ([.emit (.warning "Set OPENROUTER_API_KEY to enable streaming." none), .emit .doneEv], [])
  else
    let messages0 :=
      (match cfg.systemPrompt with
       | some s => if s ≠ "" then [Msg.systemMsg s] else []
       | none => []) ++
      (if cfg.prompt ≠ "" then [Msg.userMsg cfg.prompt] else [Msg.userMsg "Hello"])
    match cfg.toolsParam with
    | .invalidJson m => ([.emit (.rawError ("Invalid tools JSON: " ++ m))], messages0)
    | .notList => ([.emit (.rawError "Tools must be a JSON array")], messages0)
    | tp =>
      let hasTools := match tp with | .parsed ne _ => ne | _ => false
      let names := match tp with | .parsed _ ns => ns | _ => []
      if hasTools then
        let limit := if cfg.max_tool_calls = 0 then 20 else cfg.max_tool_calls
        let st0 : LoopState := ⟨messages0, false, ⟨[], 0, false⟩, 0, false⟩
        let r := tool_loop cfg orc names limit 0 st0
        match r.2 with
        | .raisedE m stE => (r.1 ++ [.emit (.errorEv m)], stE.messages)
        | .normal stN it =>
          let limitActs :=
            if it ≥ limit then
              [Action.emit (.warning ("Reached maximum tool call iterations ("
                 ++ toString limit ++ ")") none)]
              ++ (if ¬ stN.sentAny then
                    [Action.emit (.contentEv "Stopped after maximum tool calls. No further content generated by the model.")]
                  else [])
            else []
          (r.1 ++ limitActs ++ [.emit .doneEv], stN.messages)
      else
        let chunkActs := orc.plainChunks.map (fun ch => Action.emit (.contentEv ch))
        match orc.plainRaise with
        | some m => (chunkActs ++ [.emit (.errorEv m)], messages0)
        | none => (chunkActs ++ [.emit .doneEv], messages0)

/-! ### Trace observation helpers -/

/-- The SSE frame of an action, when it is an emission. -/
def Action.emitted : Action → Option DEvent
  | .emit e => some e
  | .execCall _ _ => none

/-- The downstream event stream of an action trace. -/
def events (acts : List Action) : List DEvent := acts.filterMap Action.emitted

def isDoneEv : DEvent → Bool
  | .doneEv => true
  | _ => false

/-- Number of `done` frames. -/
def countDone (evs : List DEvent) : Nat := (evs.filter isDoneEv).length

def isErrorFrame : DEvent → Bool
  | .errorEv _ => true
  | .rawError _ => true
  | _ => false

def isExecAct : Action → Bool
  | .execCall _ _ => true
  | _ => false

/-- Number of `tool_executor.execute` invocations in a trace. -/
def execCount (acts : List Action) : Nat := (acts.filter isExecAct).length

def isClampWarn : DEvent → Bool
  | .warning _ c => c = some "TOOL_CLAMP"
  | _ => false

/-- Number of `warning{code: "TOOL_CLAMP"}` frames. -/
def clampWarnCount (acts : List Action) : Nat :=
  ((events acts).filter isClampWarn).length

def isToolResultEv : DEvent → Bool
  | .toolResult _ _ _ _ _ => true
  | _ => false

/-- The `result` payloads of the `tool_result` frames of a trace. -/
def toolResultPayloads (acts : List Action) : List PyVal :=
  (events acts).filterMap (fun e =>
    match e with
    | .toolResult _ _ r _ _ => some r
    | _ => none)

/-- The ids of the `tool_result` frames of a trace. -/
def toolResultIds (acts : List Action) : List String :=
  (events acts).filterMap (fun e =>
    match e with
    | .toolResult i _ _ _ _ => some i
    | _ => none)

/-! ### Concrete scenarios

Concrete configurations and oracles used by the witnesses and
counterexamples below.  The concrete `jparse` functions agree with
`json.loads` on every string they are applied to. -/

def emptyFacts : TextFacts := ⟨false, false, false, false, false, false, none⟩

def someNow : NowInfo := ⟨738000, 2, 15, 31⟩

def emptyV2Turn : V2Turn := ⟨[], none⟩

def okV2Fin : V2Finalize := ⟨.ok "final answer", [], none⟩

def emptyLegacyMsg : LegacyMsg := ⟨[], [], ""⟩

def okLegacyFin : LegacyFinalize := ⟨.ok "final answer", [], none⟩

/-- A plain V2-mode request with the `search_web` tool registered. -/
def baseCfg : Cfg :=
  { toolLoopV2 := true
    apiKey := true
    systemPrompt := none
    prompt := "hi"
    toolsParam := .parsed true ["search_web"]
    tool_choice := some "auto"
    max_tool_calls := 5
    model := "openai/gpt-4o-mini"
    promptKeywordHit := false
    textFacts := emptyFacts
    now := someNow
    fmtDate := fun _ => ""
    jparse := fun _ => none }

def baseOracle : Oracle :=
  { v2Turn := fun _ => emptyV2Turn
    v2Fin := fun _ => okV2Fin
    legacyTurn := fun _ => .ok emptyLegacyMsg
    legacyFin := fun _ => okLegacyFin
    exec := fun _ => [("success", .pybool true), ("result", .pydict [])]
    plainChunks := []
    plainRaise := none }

/-- Upstream stream raising immediately (e.g. an HTTP 4xx surfaced by
`stream_events`). -/
def c1CexOracle : Oracle :=
  { baseOracle with v2Turn := fun _ => ⟨[], some "boom"⟩ }

/-- The argument string `{"query": "x"}` and a `jparse` agreeing with
`json.loads` on it. -/
def argQx : String := "\x7b\"query\": \"x\"\x7d"

def jparseQx : String → Option PyVal :=
  fun s => if s = argQx then some (.pydict [("query", .pystr "x")]) else none

/-- Legacy-mode request configuration (TOOL_LOOP_V2 unset). -/
def legacyCfg : Cfg := { baseCfg with toolLoopV2 := false, jparse := jparseQx }

/-- A legacy completion whose message carries two `search_web` calls with
identical arguments. -/
def dupCallsOracle : Oracle :=
  { baseOracle with
    legacyTurn := fun it =>
      if it = 1 then
        .ok ⟨[], [⟨some "a", "search_web", argQx⟩, ⟨some "b", "search_web", argQx⟩], ""⟩
      else .ok emptyLegacyMsg
    exec := fun k =>
      [("success", .pybool true),
       ("result", .pystr (if k = 0 then "one" else "two"))] }

/-- The argument string `{"query": "qi"}` for the i-th distinct search. -/
def argQn (i : Nat) : String := "\x7b\"query\": \"q" ++ toString i ++ "\"\x7d"

def jparseQn : String → Option PyVal :=
  fun s => (List.range 8).findSome? (fun i =>
    if s = argQn i then some (.pydict [("query", .pystr ("q" ++ toString i))]) else none)

/-- Legacy-mode request whose first completion carries 7 `search_web` calls
with 7 distinct queries. -/
def sevenCfg : Cfg := { baseCfg with toolLoopV2 := false, jparse := jparseQn }

def sevenCalls : List LegacyCall :=
  (List.range 7).map (fun i => ⟨some ("c" ++ toString (i + 1)), "search_web", argQn (i + 1)⟩)

def sevenOracle : Oracle :=
  { baseOracle with
    legacyTurn := fun it =>
      if it = 1 then .ok ⟨[], sevenCalls, ""⟩ else .ok emptyLegacyMsg
    exec := fun k =>
      [("success", .pybool true), ("result", .pystr ("r" ++ toString k))] }

/-- A Brave search response carrying 12 results. -/
def braveData12 : PyVal :=
  .pydict [("web", .pydict [("results",
    .pylist ((List.range 12).map (fun i =>
      PyVal.pydict [("url", .pystr ("https://example.com/" ++ toString i))])))])]

def hostFn : String → String := fun _ => "example.com"

/-- A V2 upstream stream that completes one `search_web` call. -/
def toolCallTurn : V2Turn :=
  ⟨[.reasoningU "thinking", .toolCallDelta 0 "call_0" "search_web" (some argQx)], none⟩

def v2ToolOracle : Oracle := { baseOracle with v2Turn := fun _ => toolCallTurn }

def v2ToolCfg : Cfg := { baseCfg with jparse := jparseQx }

/-- A canonical key and cached/fresh results for the dedupe-step witnesses. -/
def k0 : CanonKey := ⟨"x", "", "", ""⟩

def okResult : PyVal := .pydict [("success", .pybool true), ("result", .pystr "cached")]

def okResult2 : PyVal := .pydict [("success", .pybool true), ("result", .pystr "fresh")]

def failResult : PyVal := .pydict [("success", .pybool false), ("error", .pystr "down")]

/-! ### Result-envelope shapes and claim statements -/

/-- The success envelope of `ToolExecutor.execute`. -/
def successEnvelope (v : PyVal) : PyVal :=
  .pydict [("success", .pybool true), ("result", v)]

/-- The unknown-tool envelope of `ToolExecutor.execute`. -/
def unknownEnvelope (name : String) : PyVal :=
  .pydict [("success", .pybool false),
           ("error", .pystr ("Unknown tool: " ++ name
             ++ ". Available tools: search_web, get_current_time, calculate"))]

/-- The timeout envelope of `ToolExecutor.execute`. -/
def timeoutEnvelope (name : String) : PyVal :=
  .pydict [("success", .pybool false),
           ("error", .pystr ("Tool " ++ sq ++ name ++ sq ++ " timed out after 7.5 seconds"))]

/-- The invalid-arguments envelope of `ToolExecutor.execute`. -/
def invalidArgsEnvelope (name m : String) : PyVal :=
  .pydict [("success", .pybool false),
           ("error", .pystr ("Invalid arguments for " ++ sq ++ name ++ sq ++ ": " ++ m))]

/-- The generic-failure envelope of `ToolExecutor.execute`. -/
def failedEnvelope (name m : String) : PyVal :=
  .pydict [("success", .pybool false),
           ("error", .pystr ("Tool " ++ sq ++ name ++ sq ++ " failed: " ++ m))]

/-- The error-surfacing envelope for a dict result with a truthy `error`. -/
def errorSurfacedEnvelope (d : List (String × PyVal)) : PyVal :=
  .pydict [("success", .pybool false), ("error", .pystr (pyStr (dgetD d "error"))),
           ("result", .pydict d)]

/-- Whether a completed tool value triggers `execute`'s error-surfacing
branch (`isinstance(result, dict) and result.get("error")`). -/
def errorDictCase : PyVal → Bool
  | .pydict d => truthy (dgetD d "error")
  | _ => false

/-- The user-nudge message object. -/
def nudgeMsg : Msg := Msg.userMsg nudgeText

/-- The message bears a tool call with the given (defaulted) id. -/
def bearsCall (m : Msg) (i : String) : Prop :=
  match m with
  | .assistantCalls cs => ∃ c ∈ cs, c.id = i
  | .assistantLegacy lm => ∃ tc ∈ lm.tool_calls, tc.id.getD "unknown" = i
  | _ => False

/-- The conversation contains, in order, an assistant message bearing the
call with id `i`, a tool message answering `i`, and the user nudge. -/
def ToolTriple (msgs : List Msg) (i : String) : Prop :=
  ∃ am content, bearsCall am i ∧ [am, Msg.toolMsg i content, nudgeMsg].Sublist msgs

/-- Actions a raw content/reasoning stream may contain. -/
def streamish : Action → Bool
  | .emit (.reasoningEv _) => true
  | .emit (.contentEv _) => true
  | _ => false

/-- Canonical keys of the `search_web` invocations that reached
`tool_executor.execute` in a trace. -/
def searchExecKeys (acts : List Action) : List CanonKey :=
  acts.filterMap (fun a =>
    match a with
    | .execCall n (.pydict d) => if n = "search_web" then (canon_key d).toOption else none
    | _ => none)

/-- The request passed the pre-loop validation (API key present, tools
parameter well-formed), i.e. it reaches `Generating`. -/
def requestValidated (cfg : Cfg) : Prop :=
  cfg.apiKey = true ∧
  (match cfg.toolsParam with
   | .invalidJson _ => False
   | .notList => False
   | _ => True)

/-- Claim C1 as stated: every validated request's stream contains exactly
one `done`, placed last (in particular an in-loop exception yields `error`
followed by a terminal `done`). -/
def C1Claim : Prop :=
  ∀ cfg orc, requestValidated cfg →
    countDone (events (generate cfg orc).1) = 1
    ∧ (events (generate cfg orc).1).getLast? = some DEvent.doneEv

/-- Claim C3's operational content as stated: within any request, a
`search_web` canonical key reaches the backend at most once. -/
def C3Claim : Prop :=
  ∀ cfg orc, (searchExecKeys (generate cfg orc).1).Nodup

/-- Claim C4's operational content as stated: within any request, at most 6
distinct canonical keys ever reach the backend (the 7th unique search must
be clamped without contacting it). -/
def C4Claim : Prop :=
  ∀ cfg orc, ((searchExecKeys (generate cfg orc).1).dedup).length ≤ search_clamp_limit

/-- Claim C6 as stated: the envelope cases are — unknown name,
argument-shape error, dict-with-`error`-key, and success in every other
case. -/
def C6ClaimStatement : Prop :=
  ∀ name args out, (registryNames.contains name = true → Reachable name args out) →
    (registryNames.contains name = false → execute name out = unknownEnvelope name)
    ∧ (∀ m, out = .typeErr m → execute name out = invalidArgsEnvelope name m)
    ∧ (∀ d, out = .ok (.pydict d) → hasKey d "error" = true →
        registryNames.contains name = true →
        execute name out = errorSurfacedEnvelope d)
    ∧ (registryNames.contains name = true →
        (∀ m, out ≠ .typeErr m) →
        (∀ d, out = .ok (.pydict d) → hasKey d "error" = false) →
        truthy (envSuccess (execute name out)) = true)

/-- Claim C7's default as stated: omitting `num_results` behaves like
passing 10. -/
def C7DefaultTenClaim : Prop :=
  ∀ braveKey net urlHost args, hasKey args "num_results" = false →
    search_web_call braveKey net urlHost args
      = search_web_call braveKey net urlHost (args ++ [("num_results", .pyint 10)])

/-- The loop state recorded in a `LoopEnd`. -/
def loopEndState : LoopEnd → LoopState
  | .normal st _ => st
  | .raisedE _ st => st

/-! ## Theorems -/

/-- C8: whenever the client supplies `top_logprobs`, the outgoing payload
carries it clamped into `[1,5]` and has `logprobs` forced to true,
regardless of the client-supplied `logprobs` value. -/
theorem c8_top_logprobs_clamp (jp : String → Option PyVal) (pin : ParamsIn) (v : Int)
    (h : pin.top_logprobs = some v) :
    (build_params jp pin).top_logprobs = some (max 1 (min 5 v))
    ∧ 1 ≤ max 1 (min 5 v) ∧ max 1 (min 5 v) ≤ (5 : Int)
    ∧ (build_params jp pin).logprobs = some true := by
  unfold build_params
  rw [h]
  refine ⟨rfl, le_max_left _ _, ?_, rfl⟩
  exact max_le (by norm_num) (min_le_left _ _)

theorem c8_top_logprobs_clamp_witness :
    ({ model := "openai/gpt-4o-mini", reasoning_effort := none, response_format := none,
       stop := none, logprobs := some false, top_logprobs := some 9,
       logit_bias := none } : ParamsIn).top_logprobs = some 9
    ∧ (build_params (fun _ => none)
        { model := "openai/gpt-4o-mini", reasoning_effort := none, response_format := none,
          stop := none, logprobs := some false, top_logprobs := some 9,
          logit_bias := none }).top_logprobs = some (max 1 (min 5 9))
    ∧ (build_params (fun _ => none)
        { model := "openai/gpt-4o-mini", reasoning_effort := none, response_format := none,
          stop := none, logprobs := some false, top_logprobs := some 9,
          logit_bias := none }).logprobs = some true := by
  have h := c8_top_logprobs_clamp (fun _ => none)
    { model := "openai/gpt-4o-mini", reasoning_effort := none, response_format := none,
      stop := none, logprobs := some false, top_logprobs := some 9,
      logit_bias := none } 9 rfl
  exact ⟨rfl, h.1, h.2.2.2⟩

/-- C9: every output of the Time-Constraint Parser has its `time_hint`
chosen from `days_ago` by the actual-day-range rule, and on the relative
`(last|past|in the last) N unit` pattern `days_ago` is N times 1/7/30/365
and `after` is today minus `days_ago` days. -/
theorem c9_time_constraint_shape (f : TextFacts) (now : NowInfo) (o : TimeConstraint)
    (h : parse_time_constraints f now = some o) :
    o.time_hint = get_time_hint_from_days o.days_ago
    ∧ (∀ n u, f.hasToday = false → f.hasYesterday = false → f.hasThisWeek = false →
        f.hasLastWeek = false → f.hasThisMonth = false → f.hasLastMonth = false →
        f.relMatch = some (n, u) →
        o.days_ago = n * unitDays u ∧ o.afterDay = now.day - (n * unitDays u : Nat)) := by
  unfold parse_time_constraints at h
  split_ifs at h with h1 h2 h3 h4 h5 h6
  · injection h with h; subst h
    exact ⟨rfl, fun n u hT _ _ _ _ _ _ => by rw [h1] at hT; cases hT⟩
  · injection h with h; subst h
    exact ⟨rfl, fun n u _ hT _ _ _ _ _ => by rw [h2] at hT; cases hT⟩
  · injection h with h; subst h
    exact ⟨rfl, fun n u _ _ hT _ _ _ _ => by rw [h3] at hT; cases hT⟩
  · injection h with h; subst h
    exact ⟨rfl, fun n u _ _ _ hT _ _ _ => by rw [h4] at hT; cases hT⟩
  · injection h with h; subst h
    exact ⟨rfl, fun n u _ _ _ _ hT _ _ => by rw [h5] at hT; cases hT⟩
  · injection h with h; subst h
    exact ⟨rfl, fun n u _ _ _ _ _ hT _ => by rw [h6] at hT; cases hT⟩
  · cases hr : f.relMatch with
    | none => rw [hr] at h; cases h
    | some p =>
      obtain ⟨n0, u0⟩ := p
      rw [hr] at h
      injection h with h; subst h
      refine ⟨rfl, ?_⟩
      intro n u _ _ _ _ _ _ hEq
      have hp : (n0, u0) = (n, u) := Option.some.inj hEq
      have hn : n0 = n := congrArg Prod.fst hp
      have hu : u0 = u := congrArg Prod.snd hp
      subst hn; subst hu
      exact ⟨rfl, rfl⟩

theorem c9_time_constraint_shape_witness :
    parse_time_constraints ⟨false, false, false, false, false, false, some (5, 0)⟩ someNow
      = some ⟨"week", someNow.day - 5, 5⟩
    ∧ ("week" : String) = get_time_hint_from_days 5 := by
  refine ⟨by decide, ?_⟩
  exact (c9_time_constraint_shape ⟨false, false, false, false, false, false, some (5, 0)⟩
    someNow ⟨"week", someNow.day - 5, 5⟩ (by decide)).1

/-- C5 (code bug): for `model="xai/grok-4"` with `tool_choice="search_web"`
naming a registered tool, the served router (chat.py) forwards the forced
function object — its xAI skip guards only the implicit first-turn forcing —
while `parallel_tool_calls=false` and the `response_format` drop do hold;
the repository's own `get_tool_choice_override`
(app/routers/chat/providers.py), which the claim cites, degrades the same
input to `"auto"` as the claim states. -/
theorem c5_xai_forced_tool_choice_divergence :
    (chat_call_tool_choice (some "search_web") ["search_web"] 1 false "xai/grok-4" false).1
      = ToolChoiceVal.function "search_web"
    ∧ (chat_call_tool_choice (some "search_web") ["search_web"] 1 false "xai/grok-4" false).1
      ≠ ToolChoiceVal.auto
    ∧ chat_parallel_tool_calls "xai/grok-4" = some false
    ∧ (build_params (fun _ => none)
        { model := "xai/grok-4", reasoning_effort := none, response_format := some "json",
          stop := none, logprobs := none, top_logprobs := none,
          logit_bias := none }).response_format = none
    ∧ parse_response_format (fun _ => none) (some "json") "xai/grok-4" = none
    ∧ get_tool_choice_override (some "search_web") (provider_id_from_model "xai/grok-4")
        ["search_web"] = ToolChoiceVal.auto := by
  refine ⟨by decide, by decide, by decide, rfl, rfl, by decide⟩

/-- Helper: one unfolding of `search_step` on a cache miss below the
clamp. -/
theorem search_step_miss (st : SearchState) (key : CanonKey) (r : PyVal)
    (hmiss : cacheFind st.cache key = none)
    (hroom : ¬ st.uniqueCount ≥ search_clamp_limit) :
    search_step st key r =
      ⟨r, if truthy r = true ∧ truthy (envSuccess r) = true then
            { st with cache := (key, r) :: st.cache, uniqueCount := st.uniqueCount + 1 }
          else st, false, true⟩ := by
  unfold search_step
  rw [hmiss]
  rw [if_neg hroom]

/-- C10: the dedupe cache stores only `success=true` results and the
unique-search count increments only on success: a failed `search_web`
result leaves cache and count unchanged, and a repeat call with the same
canonical key (below the clamp) invokes the executor again and returns its
fresh result instead of the failure; caching any later result preserves the
only-successes cache invariant. -/
theorem c10_failed_search_not_cached (st : SearchState) (key : CanonKey) (r r2 : PyVal)
    (hinv : ∀ v', v' ∈ st.cache.map Prod.snd → truthy (envSuccess v') = true)
    (hfail : truthy (envSuccess r) = false)
    (hmiss : cacheFind st.cache key = none)
    (hroom : st.uniqueCount < search_clamp_limit) :
    (search_step st key r).st.cache = st.cache
    ∧ (search_step st key r).st.uniqueCount = st.uniqueCount
    ∧ (search_step st key r).calledExec = true
    ∧ (search_step (search_step st key r).st key r2).calledExec = true
    ∧ (search_step (search_step st key r).st key r2).result = r2
    ∧ (∀ v', v' ∈ ((search_step st key r2).st.cache.map Prod.snd) →
        truthy (envSuccess v') = true) := by
  have hnotge : ¬ st.uniqueCount ≥ search_clamp_limit := Nat.not_le.mpr hroom
  have hfail2 : ¬ (truthy r = true ∧ truthy (envSuccess r) = true) := by
    intro hc; rw [hfail] at hc; exact Bool.false_ne_true hc.2
  have hstep := search_step_miss st key r hmiss hnotge
  rw [if_neg hfail2] at hstep
  have hstep2 := search_step_miss st key r2 hmiss hnotge
  refine ⟨by rw [hstep], by rw [hstep], by rw [hstep],
    by rw [hstep, hstep2], by rw [hstep, hstep2], ?_⟩
  intro v' hv'
  rw [hstep2] at hv'
  by_cases hcase : truthy r2 = true ∧ truthy (envSuccess r2) = true
  · rw [if_pos hcase] at hv'
    simp only [List.map_cons, List.mem_cons] at hv'
    rcases hv' with h | h
    · rw [h]; exact hcase.2
    · exact hinv v' h
  · rw [if_neg hcase] at hv'
    exact hinv v' hv'

theorem c10_failed_search_not_cached_witness :
    truthy (envSuccess failResult) = false
    ∧ cacheFind ([] : List (CanonKey × PyVal)) k0 = none
    ∧ (0 : Nat) < search_clamp_limit
    ∧ (search_step { cache := [], uniqueCount := 0, clampWarningSent := false } k0 failResult).st.cache = []
    ∧ (search_step (search_step { cache := [], uniqueCount := 0, clampWarningSent := false } k0 failResult).st
        k0 okResult2).calledExec = true := by
  have h := c10_failed_search_not_cached
    { cache := [], uniqueCount := 0, clampWarningSent := false } k0 failResult okResult2
    (by intro v' hv'; cases hv') (by decide) rfl (by decide)
  exact ⟨by decide, rfl, by decide, h.1, h.2.2.2.1⟩

/-! ### Tool-executor lemmas (C6, C7) -/

theorem str_append_ne_empty (a b : String) (ha : a ≠ "") : a ++ b ≠ "" := by
  intro h
  rw [String.ext_iff, String.data_append] at h
  have hap : a.data = [] ∧ b.data = [] := List.append_eq_nil.mp h
  exact ha (String.ext hap.1)

theorem truthy_pystr_append (a b : String) (ha : a ≠ "") :
    truthy (.pystr (a ++ b)) = true := by
  simp only [truthy, decide_eq_true_eq]
  exact str_append_ne_empty a b ha

/-- A dict whose head binding is `("error", msg)` with nonempty `msg`
satisfies the error-key property. -/
theorem errorKeyOk_of_head (msg : String) (rest : List (String × PyVal))
    (hm : truthy (.pystr msg) = true) :
    errorKeyOk (.pydict (("error", .pystr msg) :: rest)) := by
  intro _
  simpa [dgetD, dget, List.find?] using hm

/-- A dict without the `error` key satisfies the error-key property. -/
theorem errorKeyOk_of_not_hasKey (d : List (String × PyVal))
    (h : hasKey d "error" = false) : errorKeyOk (.pydict d) := by
  intro hk
  rw [h] at hk
  cases hk

theorem errorKeyOk_searchErrDict (msg q : String) (hm : truthy (.pystr msg) = true) :
    errorKeyOk (searchErrDict msg q) :=
  errorKeyOk_of_head msg _ hm

theorem brave_items_fold_length (urlHost : String → String) :
    ∀ (l : List PyVal) (ys : List PyVal), brave_items_fold urlHost l = .ok ys →
      ys.length = l.length := by
  intro l
  induction l with
  | nil => intro ys h; cases h; rfl
  | cons a t ih =>
    intro ys h
    unfold brave_items_fold at h
    cases hi : braveResultItem urlHost a with
    | error e => rw [hi] at h; cases h
    | ok r =>
      rw [hi] at h
      cases ht : brave_items_fold urlHost t with
      | error e => rw [ht] at h; cases h
      | ok more =>
        rw [ht] at h
        cases h
        simp [ih more ht]

theorem brave_payload_shape (urlHost : String → String) (q : String) (data : PyVal)
    (nr : Nat) (p : PyVal) (h : brave_payload urlHost q data nr = .ok p) :
    errorKeyOk p ∧ resultsLen p ≤ nr := by
  unfold brave_payload at h
  cases hr : brave_results urlHost data nr with
  | error e => rw [hr] at h; cases h
  | ok rs =>
    rw [hr] at h
    cases h
    constructor
    · exact errorKeyOk_of_not_hasKey _ rfl
    · show rs.length ≤ nr
      unfold brave_results at hr
      split at hr
      · split at hr
        · split at hr
          · have := brave_items_fold_length urlHost _ _ hr
            rw [this]
            exact le_trans (List.length_take_le _ _) (le_refl _)
          · cases hr
        · cases hr
      · cases hr

theorem except_map_ok {α β γ : Type} (f : α → β) (x : Except γ α) (b : β)
    (h : Except.map f x = .ok b) : ∃ a, x = .ok a ∧ b = f a := by
  cases x with
  | ok a => refine ⟨a, rfl, ?_⟩; cases h; rfl
  | error e => cases h

theorem resultsLen_errDict (msg q : String) : resultsLen (searchErrDict msg q) = 0 := rfl

theorem ddg_assemble_shape (q : String) (nr : Nat) (first more : List PyVal) :
    errorKeyOk (ddg_assemble q nr first more)
    ∧ resultsLen (ddg_assemble q nr first more) ≤ nr := by
  refine ⟨errorKeyOk_of_not_hasKey _ rfl, ?_⟩
  simp [ddg_assemble, resultsLen, dget, List.find?]

theorem ddg_payload_dict (q : String) (d : List (String × PyVal)) (nr : Nat) :
    ddg_payload q (.pydict d) nr =
      (match (dget d "RelatedTopics").getD (.pylist []) with
       | PyVal.pylist topics =>
         (ddg_topics_fold (topics.take (nr - (ddg_first q d).length))).map
           (ddg_assemble q nr (ddg_first q d))
       | _ => Except.error "TypeError") := rfl

theorem ddg_payload_shape (q : String) (data : PyVal) (nr : Nat) (p : PyVal)
    (h : ddg_payload q data nr = .ok p) :
    errorKeyOk p ∧ resultsLen p ≤ nr := by
  cases data with
  | pynone => cases h
  | pybool b => cases h
  | pyint n => cases h
  | pystr s => cases h
  | pylist xs => cases h
  | pydict d =>
    rw [ddg_payload_dict] at h
    cases hT : (dget d "RelatedTopics").getD (.pylist []) with
    | pynone => rw [hT] at h; cases h
    | pybool b => rw [hT] at h; cases h
    | pyint n => rw [hT] at h; cases h
    | pystr s => rw [hT] at h; cases h
    | pydict xs => rw [hT] at h; cases h
    | pylist topics =>
      rw [hT] at h
      obtain ⟨more, _, rfl⟩ := except_map_ok _ _ _ h
      exact ddg_assemble_shape q nr _ more

/-- Unfolding equations for `search_try`. -/
theorem search_try_httpErr (bk : Bool) (host : String → String) (q : String) (nr : Nat)
    (m : String) :
    search_try bk (.httpErr m) host q nr = searchErrDict ("Search failed: " ++ m) q := rfl

theorem search_try_exn (bk : Bool) (host : String → String) (q : String) (nr : Nat)
    (m : String) :
    search_try bk (.exn m) host q nr
      = searchErrDict ("Unexpected error during search: " ++ m) q := rfl

theorem search_try_ok_true (host : String → String) (q : String) (nr : Nat) (data : PyVal) :
    search_try true (.ok data) host q nr =
      (match brave_payload host q data nr with
       | .ok p => p
       | .error em => searchErrDict ("Unexpected error during search: " ++ em) q) := rfl

theorem search_try_ok_false (host : String → String) (q : String) (nr : Nat) (data : PyVal) :
    search_try false (.ok data) host q nr =
      (match ddg_payload q data nr with
       | .ok p => p
       | .error em => searchErrDict ("Unexpected error during search: " ++ em) q) := rfl

theorem search_try_shape (bk : Bool) (net : NetOutcome) (host : String → String)
    (q : String) (nr : Nat) :
    errorKeyOk (search_try bk net host q nr)
    ∧ resultsLen (search_try bk net host q nr) ≤ nr := by
  cases net with
  | httpErr m =>
    rw [search_try_httpErr]
    exact ⟨errorKeyOk_searchErrDict _ _ (truthy_pystr_append "Search failed: " m (by decide)),
      by rw [resultsLen_errDict]; omega⟩
  | exn m =>
    rw [search_try_exn]
    exact ⟨errorKeyOk_searchErrDict _ _
      (truthy_pystr_append "Unexpected error during search: " m (by decide)),
      by rw [resultsLen_errDict]; omega⟩
  | ok data =>
    cases bk with
    | true =>
      rw [search_try_ok_true]
      cases hb : brave_payload host q data nr with
      | ok p => exact brave_payload_shape host q data nr p hb
      | error em =>
        exact ⟨errorKeyOk_searchErrDict _ _
          (truthy_pystr_append "Unexpected error during search: " em (by decide)),
          by rw [resultsLen_errDict]; omega⟩
    | false =>
      rw [search_try_ok_false]
      cases hb : ddg_payload q data nr with
      | ok p => exact ddg_payload_shape q data nr p hb
      | error em =>
        exact ⟨errorKeyOk_searchErrDict _ _
          (truthy_pystr_append "Unexpected error during search: " em (by decide)),
          by rw [resultsLen_errDict]; omega⟩

theorem search_web_body_ok_shape (bk : Bool) (net : NetOutcome) (host : String → String)
    (q : String) (args : List (String × PyVal)) (v : PyVal)
    (h : search_web_body bk net host q args = .ok v) :
    errorKeyOk v ∧ resultsLen v ≤ 5 := by
  unfold search_web_body at h
  split at h
  · cases h
    exact ⟨errorKeyOk_of_head _ _ (by decide), by decide⟩
  · split at h
    · cases h
      refine ⟨(search_try_shape _ _ _ _ _).1, le_trans (search_try_shape _ _ _ _ _).2 ?_⟩
      omega
    · cases h
      refine ⟨(search_try_shape _ _ _ _ _).1, le_trans (search_try_shape _ _ _ _ _).2 ?_⟩
      omega
    · cases h
      refine ⟨(search_try_shape _ _ _ _ _).1, le_trans (search_try_shape _ _ _ _ _).2 ?_⟩
      omega
    · cases h

theorem search_web_call_ok_shape (bk : Bool) (net : NetOutcome) (host : String → String)
    (args : List (String × PyVal)) (v : PyVal)
    (h : search_web_call bk net host args = .ok v) :
    errorKeyOk v ∧ resultsLen v ≤ 5 := by
  unfold search_web_call at h
  split at h
  · cases h
  · split at h
    · cases h
    · split at h
      · cases h
        exact ⟨errorKeyOk_of_head _ _ (by decide), by decide⟩
      · split at h
        · exact search_web_body_ok_shape _ _ _ _ _ _ h
        · cases h

theorem get_current_time_call_ok_errorKeyOk (c : ClockOutcome)
    (args : List (String × PyVal)) (v : PyVal)
    (h : get_current_time_call c args = .ok v) : errorKeyOk v := by
  unfold get_current_time_call at h
  split at h
  · cases h
  · cases c with
    | ok iso unix formatted date time =>
      cases h
      exact errorKeyOk_of_not_hasKey _ rfl
    | exn m =>
      cases h
      exact errorKeyOk_of_head _ _ (truthy_pystr_append "Failed to get time: " m (by decide))

theorem calculate_call_ok_errorKeyOk (c : CalcOutcome)
    (args : List (String × PyVal)) (v : PyVal)
    (h : calculate_call c args = .ok v) : errorKeyOk v := by
  unfold calculate_call at h
  split at h
  · cases h
  · split at h
    · cases h
    · split at h
      · cases h
        exact errorKeyOk_of_head _ _ (by decide)
      · split at h
        · split at h
          · cases h
            exact errorKeyOk_of_head _ _ (by decide)
          · cases c with
            | value vv vr => cases h; exact errorKeyOk_of_not_hasKey _ rfl
            | syntaxErr =>
              cases h
              exact errorKeyOk_of_head _ _
                (truthy_pystr_append "Invalid mathematical expression: " _ (by decide))
            | zeroDiv => cases h; exact errorKeyOk_of_head _ _ (by decide)
            | exn m =>
              cases h
              exact errorKeyOk_of_head _ _ (truthy_pystr_append "Calculation failed: " m (by decide))
        · cases h

/-- Every value a registered tool can complete with satisfies the error-key
property: its `error` bindings are nonempty strings. -/
theorem reachable_errorKeyOk (name : String) (args : List (String × PyVal))
    (out : CallOutcome) (h : Reachable name args out) :
    ∀ v, out = .ok v → errorKeyOk v := by
  intro v hv
  cases h with
  | search bk net host args => exact (search_web_call_ok_shape bk net host args v hv).1
  | clock c args => exact get_current_time_call_ok_errorKeyOk c args v hv
  | calcTool c args => exact calculate_call_ok_errorKeyOk c args v hv
  | timeout nm args hreg => cases hv

/-- C6 counterexample: the claim's final clause ("in every other case the
envelope is a success") fails on a tool timeout — a reachable outcome of
`asyncio.wait_for` — where `execute` returns `success: false` with the
timed-out error. -/
theorem c6_counterexample_timeout : ¬ C6ClaimStatement := by
  intro hc
  have h := hc "search_web" [("query", .pystr "x")] .timedOut
    (fun _ => Reachable.timeout "search_web" [("query", .pystr "x")] (by decide))
  have h4 := h.2.2.2 (by decide) (fun m hm => by cases hm) (fun d hd => by cases hd)
  rw [show truthy (envSuccess (execute "search_web" CallOutcome.timedOut)) = false from rfl]
    at h4
  exact Bool.false_ne_true h4

/-- C6 (amended): `ToolExecutor.execute` always returns an envelope and
never raises; an unregistered name yields the unknown-tool failure, a
`TypeError` (argument-shape error) yields the invalid-arguments failure, a
timeout yields the timed-out failure, any other exception yields the
tool-failed failure, a completed dict carrying an `error` key (always
truthy for the registered tools) yields `{success: false, error, result}`,
and every other completed value yields `{success: true, result}`. -/
theorem c6_execute_envelope (name : String) (args : List (String × PyVal)) (out : CallOutcome)
    (hr : registryNames.contains name = true → Reachable name args out) :
    (registryNames.contains name = false → execute name out = unknownEnvelope name)
    ∧ (registryNames.contains name = true → ∀ m, out = .typeErr m →
        execute name out = invalidArgsEnvelope name m)
    ∧ (registryNames.contains name = true → out = .timedOut →
        execute name out = timeoutEnvelope name)
    ∧ (registryNames.contains name = true → ∀ m, out = .exn m →
        execute name out = failedEnvelope name m)
    ∧ (registryNames.contains name = true → ∀ d, out = .ok (.pydict d) →
        hasKey d "error" = true → execute name out = errorSurfacedEnvelope d)
    ∧ (registryNames.contains name = true → ∀ v, out = .ok v →
        errorDictCase v = false → execute name out = successEnvelope v) := by
  refine ⟨?_, ?_, ?_, ?_, ?_, ?_⟩
  · intro hf
    unfold execute
    rw [if_pos (by rw [hf]; simp)]
    rfl
  · intro ht m hm
    subst hm
    unfold execute
    rw [if_neg (by rw [ht]; simp)]
    rfl
  · intro ht hm
    subst hm
    unfold execute
    rw [if_neg (by rw [ht]; simp)]
    rfl
  · intro ht m hm
    subst hm
    unfold execute
    rw [if_neg (by rw [ht]; simp)]
    rfl
  · intro ht d hd hk
    have htru : truthy (dgetD d "error") = true :=
      reachable_errorKeyOk name args out (hr ht) _ hd hk
    subst hd
    unfold execute
    rw [if_neg (by rw [ht]; simp)]
    simp only [htru]
    rfl
  · intro ht v hv hedc
    subst hv
    unfold execute
    rw [if_neg (by rw [ht]; simp)]
    cases v with
    | pydict d =>
      have hfalse : truthy (dgetD d "error") = false := by
        simpa [errorDictCase] using hedc
      simp only [hfalse]
      rfl
    | pynone => rfl
    | pybool b => rfl
    | pyint n => rfl
    | pystr s => rfl
    | pylist xs => rfl

theorem c6_execute_envelope_witness :
    execute "search_web"
        (search_web_call false (.ok (.pydict [])) hostFn [("query", .pystr "hi")])
      = successEnvelope (.pydict [("query", .pystr "hi"), ("num_results", .pyint 1),
          ("results", .pylist [ddgDefaultEntry "hi"]), ("provider", .pystr "duckduckgo")]) := by
  have h := c6_execute_envelope "search_web" [("query", .pystr "hi")]
    (search_web_call false (.ok (.pydict [])) hostFn [("query", .pystr "hi")])
    (fun _ => Reachable.search false (.ok (.pydict [])) hostFn [("query", .pystr "hi")])
  exact h.2.2.2.2.2 (by decide) _ rfl (by decide)

theorem dget_append_single (k2 : String) (v : PyVal) (k : String) (hk : ¬ k2 = k) :
    ∀ args : List (String × PyVal), dget (args ++ [(k2, v)]) k = dget args k := by
  intro args
  induction args with
  | nil => simp [dget, List.find?, hk]
  | cons a t ih =>
    by_cases ha : a.1 = k
    · simp [dget, List.find?, ha]
    · simp only [dget, List.cons_append, List.find?] at ih ⊢
      rw [show (decide (a.1 = k)) = false by simp [ha]]
      exact ih

theorem dget_append_single_self (args : List (String × PyVal)) (k2 : String) (v : PyVal)
    (h : dget args k2 = none) :
    dget (args ++ [(k2, v)]) k2 = some v := by
  induction args with
  | nil => simp [dget, List.find?]
  | cons a t ih =>
    by_cases ha : a.1 = k2
    · exfalso
      simp [dget, List.find?, ha] at h
    · simp only [dget, List.cons_append, List.find?] at h ih ⊢
      rw [show (decide (a.1 = k2)) = false by simp [ha]] at h ⊢
      exact ih h

/-- C7 (amended): every `search_web` call yields at most 5 results — the
`num_results` argument is clamped to `[1,5]`, so in particular never more
than 10 — and omitting `num_results` behaves exactly like passing 3 (the
Python default), not 10. -/
theorem c7_search_num_results (bk : Bool) (net : NetOutcome) (host : String → String)
    (args : List (String × PyVal)) (v : PyVal)
    (hok : search_web_call bk net host args = .ok v)
    (hnum : hasKey args "num_results" = false) :
    resultsLen v ≤ 5 ∧ resultsLen v ≤ 10
    ∧ search_web_call bk net host args
      = search_web_call bk net host (args ++ [("num_results", .pyint 3)]) := by
  have hshape := search_web_call_ok_shape bk net host args v hok
  refine ⟨hshape.2, le_trans hshape.2 (by omega), ?_⟩
  have hnone : dget args "num_results" = none := by
    unfold hasKey at hnum
    cases hd : dget args "num_results" with
    | none => rfl
    | some x => rw [hd] at hnum; cases hnum
  have hq := dget_append_single "num_results" (.pyint 3) "query" (by decide) args
  have hself := dget_append_single_self args "num_results" (.pyint 3) hnone
  unfold search_web_call search_web_body
  rw [List.all_append]
  rw [show ([(("num_results" : String), PyVal.pyint 3)].all fun p =>
      (["query", "num_results", "time_hint", "after", "before"].contains p.1 : Bool)) = true
    from rfl]
  rw [Bool.and_true]
  simp only [dgetD, hasKey, hq, hself, hnone]

theorem c7_search_num_results_witness :
    search_web_call true (.ok braveData12) hostFn [("query", .pystr "x")]
        = .ok (.pydict [("query", .pystr "x"), ("num_results", .pyint 3),
            ("results", .pylist [
              .pydict [("title", .pystr "https://example.com/0"), ("snippet", .pystr ""),
                       ("url", .pystr "https://example.com/0"), ("source", .pystr "example.com")],
              .pydict [("title", .pystr "https://example.com/1"), ("snippet", .pystr ""),
                       ("url", .pystr "https://example.com/1"), ("source", .pystr "example.com")],
              .pydict [("title", .pystr "https://example.com/2"), ("snippet", .pystr ""),
                       ("url", .pystr "https://example.com/2"), ("source", .pystr "example.com")]]),
            ("provider", .pystr "brave")])
    ∧ hasKey [("query", PyVal.pystr "x")] "num_results" = false
    ∧ resultsLen (.pydict [("query", .pystr "x"), ("num_results", .pyint 3),
            ("results", .pylist [
              .pydict [("title", .pystr "https://example.com/0"), ("snippet", .pystr ""),
                       ("url", .pystr "https://example.com/0"), ("source", .pystr "example.com")],
              .pydict [("title", .pystr "https://example.com/1"), ("snippet", .pystr ""),
                       ("url", .pystr "https://example.com/1"), ("source", .pystr "example.com")],
              .pydict [("title", .pystr "https://example.com/2"), ("snippet", .pystr ""),
                       ("url", .pystr "https://example.com/2"), ("source", .pystr "example.com")]]),
            ("provider", .pystr "brave")]) ≤ 5
    ∧ search_web_call true (.ok braveData12) hostFn [("query", .pystr "x")]
      = search_web_call true (.ok braveData12) hostFn
          ([("query", .pystr "x")] ++ [("num_results", .pyint 3)]) := by
  have h := c7_search_num_results true (.ok braveData12) hostFn
    [("query", .pystr "x")] _ rfl rfl
  exact ⟨rfl, rfl, h.1, h.2.2⟩

/-- C7 counterexample: omitting `num_results` does not behave like passing
10 — with a 12-result Brave response the omitted-argument call returns 3
results (the Python default is 3, clamped to `[1,5]`), while an explicit 10
would return 5. -/
theorem c7_counterexample_default : ¬ C7DefaultTenClaim := by
  intro hc
  have h := hc true (.ok braveData12) hostFn [("query", .pystr "x")] rfl
  have h2 := congrArg (fun r =>
    match r with
    | CallOutcome.ok v => resultsLen v
    | _ => 0) h
  exact absurd h2 (by decide)

/-! ### Orchestrator trace lemmas (C1-C4) -/

theorem events_append (a b : List Action) : events (a ++ b) = events a ++ events b := by
  simp [events, List.filterMap_append]

theorem countDone_events_append (a b : List Action) :
    countDone (events (a ++ b)) = countDone (events a) + countDone (events b) := by
  simp [events, countDone, List.filterMap_append, List.filter_append]

theorem clampWarnCount_append (a b : List Action) :
    clampWarnCount (a ++ b) = clampWarnCount a + clampWarnCount b := by
  simp [clampWarnCount, events, List.filterMap_append, List.filter_append]

theorem execCount_append (a b : List Action) :
    execCount (a ++ b) = execCount a + execCount b := by
  simp [execCount, List.filter_append]

theorem map_content_streamish (l : List String) :
    (l.map (fun ch => Action.emit (DEvent.contentEv ch))).all streamish = true := by
  induction l with
  | nil => rfl
  | cons a t ih => simp [streamish, ih]

theorem map_reasoning_streamish (l : List String) :
    (l.map (fun s => Action.emit (DEvent.reasoningEv s))).all streamish = true := by
  induction l with
  | nil => rfl
  | cons a t ih => simp [streamish, ih]

theorem events_cons_emit (e : DEvent) (t : List Action) :
    events (Action.emit e :: t) = e :: events t := rfl

theorem countDone_cons (e : DEvent) (t : List DEvent) (h : isDoneEv e = false) :
    countDone (e :: t) = countDone t := by
  simp [countDone, List.filter_cons, h]

theorem clampWarnCount_cons_emit (e : DEvent) (t : List Action)
    (h : isClampWarn e = false) :
    clampWarnCount (Action.emit e :: t) = clampWarnCount t := by
  unfold clampWarnCount
  rw [events_cons_emit]
  simp [List.filter_cons, h]

theorem execCount_cons_emit (e : DEvent) (t : List Action) :
    execCount (Action.emit e :: t) = execCount t := by
  simp [execCount, List.filter_cons, isExecAct]

/-- Streamish traces (only reasoning/content frames) contribute no `done`
frame, no executor call, no clamp warning and no `tool_result` frame. -/
theorem streamish_counts (acts : List Action) (h : acts.all streamish = true) :
    countDone (events acts) = 0 ∧ execCount acts = 0 ∧ clampWarnCount acts = 0
    ∧ (∀ i n r c vb, Action.emit (.toolResult i n r c vb) ∉ acts) := by
  induction acts with
  | nil => exact ⟨rfl, rfl, rfl, by intro i n r c vb hm; cases hm⟩
  | cons a t ih =>
    simp only [List.all_cons, Bool.and_eq_true] at h
    obtain ⟨ha, ht⟩ := h
    obtain ⟨h1, h2, h3, h4⟩ := ih ht
    cases a with
    | execCall nm ar => simp [streamish] at ha
    | emit e =>
      cases e with
      | reasoningEv s =>
        refine ⟨?_, ?_, ?_, ?_⟩
        · rw [events_cons_emit, countDone_cons (DEvent.reasoningEv s) (events t) rfl]
          exact h1
        · rw [execCount_cons_emit]; exact h2
        · rw [clampWarnCount_cons_emit (DEvent.reasoningEv s) t rfl]; exact h3
        · intro i n r c vb hm
          rcases List.mem_cons.mp hm with h | h
          · cases h
          · exact h4 i n r c vb h
      | contentEv s =>
        refine ⟨?_, ?_, ?_, ?_⟩
        · rw [events_cons_emit, countDone_cons (DEvent.contentEv s) (events t) rfl]
          exact h1
        · rw [execCount_cons_emit]; exact h2
        · rw [clampWarnCount_cons_emit (DEvent.contentEv s) t rfl]; exact h3
        · intro i n r c vb hm
          rcases List.mem_cons.mp hm with h | h
          · cases h
          · exact h4 i n r c vb h
      | warning m c => simp [streamish] at ha
      | doneEv => simp [streamish] at ha
      | errorEv m => simp [streamish] at ha
      | rawError m => simp [streamish] at ha
      | toolCallsEv cs => simp [streamish] at ha
      | toolExecuting a b c d => simp [streamish] at ha
      | toolResult a b c d e => simp [streamish] at ha
      | debugEv m => simp [streamish] at ha

theorem v2_consume_streamish (j : String → Option PyVal) (it : Nat) :
    ∀ (evs : List UEvent) (bs : List (Nat × Builder)) (sent : Bool),
      ((v2_consume j it evs bs sent).acts).all streamish = true := by
  intro evs
  induction evs with
  | nil => intro bs sent; rfl
  | cons ev rest ih =>
    intro bs sent
    cases ev with
    | reasoningU s => simp [v2_consume, streamish, ih]
    | contentDelta s => simp [v2_consume, streamish, ih]
    | doneU => rfl
    | otherU => simpa [v2_consume] using ih bs sent
    | toolCallDelta idx evId evName evArgs =>
      simp only [v2_consume]
      repeat' split
      all_goals first | rfl | exact ih _ sent

theorem legacy_fallback_consume_streamish :
    ∀ evs : List UEvent, ((legacy_fallback_consume evs).acts).all streamish = true := by
  intro evs
  induction evs with
  | nil => rfl
  | cons ev rest ih =>
    cases ev with
    | reasoningU s => simp [legacy_fallback_consume, streamish, ih]
    | contentDelta s => simp [legacy_fallback_consume, streamish, ih]
    | doneU => rfl
    | otherU => simpa [legacy_fallback_consume] using ih
    | toolCallDelta idx evId evName evArgs => simpa [legacy_fallback_consume] using ih

/-- In the legacy branch (`tool_loop_v2` false) the dedupe guard is off and
`run_tool` always just invokes the executor. -/
theorem run_tool_false (orc : Oracle) (n : String) (fa : PyVal) (s : SearchState)
    (c : Nat) :
    run_tool false orc n fa s c
      = ([Action.execCall n fa], PyVal.pydict (orc.exec c), s, c + 1) := by
  unfold run_tool
  rw [if_neg]
  intro hc
  exact Bool.false_ne_true hc.1

theorem run_tool_facts (g : Bool) (orc : Oracle) (n : String) (fa : PyVal)
    (s : SearchState) (c : Nat) :
    countDone (events (run_tool g orc n fa s c).1) = 0
    ∧ execCount (run_tool g orc n fa s c).1 ≤ 1
    ∧ clampWarnCount (run_tool g orc n fa s c).1 ≤ 1
    ∧ (∀ i n' r cc vv, Action.emit (.toolResult i n' r cc vv) ∉ (run_tool g orc n fa s c).1) := by
  unfold run_tool
  split
  · split
    · dsimp only
      refine ⟨?_, ?_, ?_, ?_⟩
      · split <;> split <;> rfl
      · split <;> split <;>
          simp [execCount, isExecAct, List.filter_append, List.filter_cons]
      · split <;> split <;>
          simp [clampWarnCount, events, isClampWarn, List.filter_append,
            List.filter_cons, List.filterMap_cons, Action.emitted]
      · intro i n' r cc vv hm
        split at hm <;> split at hm <;> simp at hm
    · refine ⟨rfl, by simp [execCount, isExecAct, List.filter_cons], ?_, ?_⟩
      · simp [clampWarnCount, events, isClampWarn, List.filter_cons,
          List.filterMap_cons, Action.emitted]
      · intro i n' r cc vv hm
        simp at hm
  · refine ⟨rfl, by simp [execCount, isExecAct, List.filter_cons], ?_, ?_⟩
    · simp [clampWarnCount, events, isClampWarn, List.filter_cons,
        List.filterMap_cons, Action.emitted]
    · intro i n' r cc vv hm
      simp at hm

theorem counts_emit_single (e : DEvent) (hd : isDoneEv e = false)
    (hc : isClampWarn e = false) :
    countDone (events [Action.emit e]) = 0 ∧ execCount [Action.emit e] = 0
    ∧ clampWarnCount [Action.emit e] = 0 := by
  refine ⟨?_, rfl, ?_⟩
  · rw [events_cons_emit, countDone_cons e (events []) hd]; rfl
  · rw [clampWarnCount_cons_emit e [] hc]; rfl

theorem counts_append_emit (acts : List Action) (e : DEvent)
    (hd : isDoneEv e = false) (hc : isClampWarn e = false) :
    countDone (events (acts ++ [Action.emit e])) = countDone (events acts)
    ∧ execCount (acts ++ [Action.emit e]) = execCount acts
    ∧ clampWarnCount (acts ++ [Action.emit e]) = clampWarnCount acts := by
  obtain ⟨s1, s2, s3⟩ := counts_emit_single e hd hc
  refine ⟨?_, ?_, ?_⟩
  · rw [countDone_events_append, s1]; rfl
  · rw [execCount_append, s2]; rfl
  · rw [clampWarnCount_append, s3]; rfl

/-- A V2 tool block — streamed deltas, the `tool_calls`/`tool_executing`
frames, the guarded execution, the `tool_result` frame — has no `done`, at
most one executor call and at most one clamp warning. -/
theorem acts_block_counts (pre mid : List Action) (e1 e2 e3 : DEvent)
    (hpre : pre.all streamish = true)
    (hmidD : countDone (events mid) = 0) (hmidE : execCount mid ≤ 1)
    (hmidC : clampWarnCount mid ≤ 1)
    (h1d : isDoneEv e1 = false) (h1c : isClampWarn e1 = false)
    (h2d : isDoneEv e2 = false) (h2c : isClampWarn e2 = false)
    (h3d : isDoneEv e3 = false) (h3c : isClampWarn e3 = false) :
    countDone (events ((((pre ++ [Action.emit e1]) ++ [Action.emit e2]) ++ mid)
      ++ [Action.emit e3])) = 0
    ∧ execCount ((((pre ++ [Action.emit e1]) ++ [Action.emit e2]) ++ mid)
      ++ [Action.emit e3]) ≤ 1
    ∧ clampWarnCount ((((pre ++ [Action.emit e1]) ++ [Action.emit e2]) ++ mid)
      ++ [Action.emit e3]) ≤ 1 := by
  obtain ⟨p1, p2, p3, _⟩ := streamish_counts pre hpre
  obtain ⟨a1, a2, a3⟩ := counts_emit_single e1 h1d h1c
  obtain ⟨b1, b2, b3⟩ := counts_emit_single e2 h2d h2c
  obtain ⟨d1, d2, d3⟩ := counts_emit_single e3 h3d h3c
  refine ⟨?_, ?_, ?_⟩
  · rw [countDone_events_append, countDone_events_append, countDone_events_append,
      countDone_events_append, p1, a1, b1, hmidD, d1]
  · rw [execCount_append, execCount_append, execCount_append, execCount_append,
      p2, a2, b2, d2]
    omega
  · rw [clampWarnCount_append, clampWarnCount_append, clampWarnCount_append,
      clampWarnCount_append, p3, a3, b3, d3]
    omega

theorem v2_fallback_counts (acts : List Action) (st : LoopState) (fin : V2Finalize) :
    countDone (events (v2_fallback acts st fin).acts) = countDone (events acts)
    ∧ execCount (v2_fallback acts st fin).acts = execCount acts
    ∧ clampWarnCount (v2_fallback acts st fin).acts = clampWarnCount acts := by
  unfold v2_fallback
  obtain ⟨f1, f2, f3, _⟩ := streamish_counts _ (map_content_streamish fin.fallbackChunks)
  cases hr : fin.fallbackRaise with
  | some m =>
    dsimp only
    obtain ⟨s1, s2, s3⟩ := counts_emit_single
      (DEvent.errorEv ("Streaming finalization failed: " ++ m)) rfl rfl
    refine ⟨?_, ?_, ?_⟩
    · rw [countDone_events_append, countDone_events_append, f1, s1]; rfl
    · rw [execCount_append, execCount_append, f2, s2]; rfl
    · rw [clampWarnCount_append, clampWarnCount_append, f3, s3]; rfl
  | none =>
    dsimp only
    refine ⟨?_, ?_, ?_⟩
    · rw [countDone_events_append, f1]; rfl
    · rw [execCount_append, f2]; rfl
    · rw [clampWarnCount_append, f3]; rfl

/-- Every control path of a V2 iteration emits no `done` frame, invokes the
executor at most once and emits at most one clamp warning. -/
theorem v2_turn_counts (cfg : Cfg) (orc : Oracle) (it : Nat) (st : LoopState) :
    countDone (events (v2_turn cfg orc it st).acts) = 0
    ∧ execCount (v2_turn cfg orc it st).acts ≤ 1
    ∧ clampWarnCount (v2_turn cfg orc it st).acts ≤ 1 := by
  obtain ⟨c1, c2, c3, _⟩ := streamish_counts _
    (v2_consume_streamish cfg.jparse it (orc.v2Turn it).events [] st.sentAny)
  unfold v2_turn
  dsimp only
  cases hcc : (v2_consume cfg.jparse it (orc.v2Turn it).events [] st.sentAny).completed with
  | none =>
    dsimp only
    split
    · exact ⟨c1, le_trans (le_of_eq c2) (Nat.zero_le 1),
        le_trans (le_of_eq c3) (Nat.zero_le 1)⟩
    · split
      · exact ⟨c1, le_trans (le_of_eq c2) (Nat.zero_le 1),
          le_trans (le_of_eq c3) (Nat.zero_le 1)⟩
      · refine ⟨?_, ?_, ?_⟩
        · rw [(counts_append_emit _ (DEvent.contentEv "No additional content generated.")
            rfl rfl).1]
          exact c1
        · rw [(counts_append_emit _ (DEvent.contentEv "No additional content generated.")
            rfl rfl).2.1]
          omega
        · rw [(counts_append_emit _ (DEvent.contentEv "No additional content generated.")
            rfl rfl).2.2]
          omega
  | some call =>
    dsimp only
    have hbl := acts_block_counts
      (v2_consume cfg.jparse it (orc.v2Turn it).events [] st.sentAny).acts
      (run_tool true orc call.name
        (if call.name = "search_web" then
          enrich_args (parse_time_constraints cfg.textFacts cfg.now) cfg.fmtDate
            (parse_args cfg.jparse call.arguments)
         else parse_args cfg.jparse call.arguments) st.search st.execCtr).1
      (DEvent.toolCallsEv [call])
      (DEvent.toolExecuting call.id call.name (tool_metadata call.name).1
        (tool_metadata call.name).2)
      (DEvent.toolResult call.id call.name
        (run_tool true orc call.name
          (if call.name = "search_web" then
            enrich_args (parse_time_constraints cfg.textFacts cfg.now) cfg.fmtDate
              (parse_args cfg.jparse call.arguments)
           else parse_args cfg.jparse call.arguments) st.search st.execCtr).2.1
        (tool_metadata call.name).1 (tool_metadata call.name).2)
      (v2_consume_streamish cfg.jparse it (orc.v2Turn it).events [] st.sentAny)
      (run_tool_facts true orc call.name
        (if call.name = "search_web" then
          enrich_args (parse_time_constraints cfg.textFacts cfg.now) cfg.fmtDate
            (parse_args cfg.jparse call.arguments)
         else parse_args cfg.jparse call.arguments) st.search st.execCtr).1
      (run_tool_facts true orc call.name
        (if call.name = "search_web" then
          enrich_args (parse_time_constraints cfg.textFacts cfg.now) cfg.fmtDate
            (parse_args cfg.jparse call.arguments)
         else parse_args cfg.jparse call.arguments) st.search st.execCtr).2.1
      (run_tool_facts true orc call.name
        (if call.name = "search_web" then
          enrich_args (parse_time_constraints cfg.textFacts cfg.now) cfg.fmtDate
            (parse_args cfg.jparse call.arguments)
         else parse_args cfg.jparse call.arguments) st.search st.execCtr).2.2.1
      rfl rfl rfl rfl rfl rfl
    cases hf : (orc.v2Fin it).completionOutcome with
    | ok content =>
      dsimp only
      split
      · refine ⟨?_, ?_, ?_⟩
        · rw [(counts_append_emit _ (DEvent.contentEv content) rfl rfl).1]
          exact hbl.1
        · rw [(counts_append_emit _ (DEvent.contentEv content) rfl rfl).2.1]
          exact hbl.2.1
        · rw [(counts_append_emit _ (DEvent.contentEv content) rfl rfl).2.2]
          exact hbl.2.2
      · refine ⟨?_, ?_, ?_⟩
        · rw [(v2_fallback_counts _ _ _).1]; exact hbl.1
        · rw [(v2_fallback_counts _ _ _).2.1]; exact hbl.2.1
        · rw [(v2_fallback_counts _ _ _).2.2]; exact hbl.2.2
    | error m =>
      dsimp only
      refine ⟨?_, ?_, ?_⟩
      · rw [(v2_fallback_counts _ _ _).1,
          (counts_append_emit _ (DEvent.debugEv ("Non-streaming finalization failed: " ++ m))
            rfl rfl).1]
        exact hbl.1
      · rw [(v2_fallback_counts _ _ _).2.1,
          (counts_append_emit _ (DEvent.debugEv ("Non-streaming finalization failed: " ++ m))
            rfl rfl).2.1]
        exact hbl.2.1
      · rw [(v2_fallback_counts _ _ _).2.2,
          (counts_append_emit _ (DEvent.debugEv ("Non-streaming finalization failed: " ++ m))
            rfl rfl).2.2]
        exact hbl.2.2

/-- With the legacy flag off (the only way this fold runs), the per-call
fold emits no `done` frame and no clamp warning. -/
theorem legacy_calls_fold_counts (cfg : Cfg) (orc : Oracle)
    (hflag : cfg.toolLoopV2 = false) :
    ∀ (calls : List LegacyCall) (st : LoopState),
      countDone (events (legacy_calls_fold cfg orc calls st).1) = 0
      ∧ clampWarnCount (legacy_calls_fold cfg orc calls st).1 = 0 := by
  intro calls
  induction calls with
  | nil => intro st; exact ⟨rfl, rfl⟩
  | cons tc rest ih =>
    intro st
    unfold legacy_calls_fold
    dsimp only
    rw [hflag, run_tool_false]
    dsimp only
    refine ⟨?_, ?_⟩
    · rw [countDone_events_append, (ih _).1]; rfl
    · rw [clampWarnCount_append, (ih _).2]; rfl

theorem legacy_finalize_fallback_counts (acts : List Action) (st : LoopState)
    (fin : LegacyFinalize) :
    countDone (events (legacy_finalize_fallback acts st fin).acts) = countDone (events acts)
    ∧ execCount (legacy_finalize_fallback acts st fin).acts = execCount acts
    ∧ clampWarnCount (legacy_finalize_fallback acts st fin).acts = clampWarnCount acts := by
  unfold legacy_finalize_fallback
  obtain ⟨f1, f2, f3, _⟩ := streamish_counts _
    (legacy_fallback_consume_streamish fin.fallbackEvents)
  dsimp only
  split
  · rename_i m hm
    obtain ⟨s1, s2, s3⟩ := counts_emit_single
      (DEvent.errorEv ("Streaming finalization failed: " ++ m)) rfl rfl
    refine ⟨?_, ?_, ?_⟩
    · rw [countDone_events_append, countDone_events_append, f1, s1]; rfl
    · rw [execCount_append, execCount_append, f2, s2]; rfl
    · rw [clampWarnCount_append, clampWarnCount_append, f3, s3]; rfl
  · split
    · obtain ⟨s1, s2, s3⟩ := counts_emit_single
        (DEvent.contentEv "No additional content generated.") rfl rfl
      refine ⟨?_, ?_, ?_⟩
      · rw [countDone_events_append, countDone_events_append, f1, s1]; rfl
      · rw [execCount_append, execCount_append, f2, s2]; rfl
      · rw [clampWarnCount_append, clampWarnCount_append, f3, s3]; rfl
    · refine ⟨?_, ?_, ?_⟩
      · rw [countDone_events_append, f1]; rfl
      · rw [execCount_append, f2]; rfl
      · rw [clampWarnCount_append, f3]; rfl

/-- Every control path of a legacy iteration emits no `done` frame and no
clamp warning. -/
theorem legacy_turn_counts (cfg : Cfg) (orc : Oracle) (it : Nat) (st : LoopState)
    (hflag : cfg.toolLoopV2 = false) :
    countDone (events (legacy_turn cfg orc it st).acts) = 0
    ∧ clampWarnCount (legacy_turn cfg orc it st).acts = 0 := by
  unfold legacy_turn
  cases hl : orc.legacyTurn it with
  | error m => exact ⟨rfl, rfl⟩
  | ok msg =>
    obtain ⟨r1, r2, r3, _⟩ := streamish_counts _ (map_reasoning_streamish msg.reasoningSegs)
    dsimp only
    split
    · have ha1 := counts_append_emit
        (msg.reasoningSegs.map (fun s => Action.emit (DEvent.reasoningEv s)))
        (DEvent.toolCallsEv (msg.tool_calls.map
          (fun tc => CompletedCall.mk (tc.id.getD "unknown") tc.name tc.arguments))) rfl rfl
      have hfold := legacy_calls_fold_counts cfg orc hflag msg.tool_calls
        { st with messages := st.messages ++ [Msg.assistantLegacy msg] }
      cases hf : (orc.legacyFin it).completionOutcome with
      | ok content =>
        dsimp only
        split
        · refine ⟨?_, ?_⟩
          · rw [(counts_append_emit _ (DEvent.contentEv content) rfl rfl).1,
              countDone_events_append, ha1.1, r1, hfold.1]
          · rw [(counts_append_emit _ (DEvent.contentEv content) rfl rfl).2.2,
              clampWarnCount_append, ha1.2.2, r3, hfold.2]
        · refine ⟨?_, ?_⟩
          · rw [(legacy_finalize_fallback_counts _ _ _).1,
              countDone_events_append, ha1.1, r1, hfold.1]
          · rw [(legacy_finalize_fallback_counts _ _ _).2.2,
              clampWarnCount_append, ha1.2.2, r3, hfold.2]
      | error m =>
        dsimp only
        refine ⟨?_, ?_⟩
        · rw [(legacy_finalize_fallback_counts _ _ _).1,
            (counts_append_emit _
              (DEvent.debugEv ("Non-streaming finalization failed: " ++ m)) rfl rfl).1,
            countDone_events_append, ha1.1, r1, hfold.1]
        · rw [(legacy_finalize_fallback_counts _ _ _).2.2,
            (counts_append_emit _
              (DEvent.debugEv ("Non-streaming finalization failed: " ++ m)) rfl rfl).2.2,
            clampWarnCount_append, ha1.2.2, r3, hfold.2]
    · split
      · split
        · exact ⟨r1, r3⟩
        · exact ⟨by rw [(counts_append_emit _ (DEvent.contentEv msg.content) rfl rfl).1, r1],
            by rw [(counts_append_emit _ (DEvent.contentEv msg.content) rfl rfl).2.2, r3]⟩
      · split
        · exact ⟨r1, r3⟩
        · exact ⟨by rw [(counts_append_emit _
              (DEvent.contentEv "No additional content generated.") rfl rfl).1, r1],
            by rw [(counts_append_emit _
              (DEvent.contentEv "No additional content generated.") rfl rfl).2.2, r3]⟩

/-- Across the whole tool loop: no `done` frame, at most one executor call
in the V2 branch, and at most one clamp warning. -/
theorem tool_loop_counts (cfg : Cfg) (orc : Oracle) (names : List String) :
    ∀ (fuel it : Nat) (st : LoopState),
      countDone (events (tool_loop cfg orc names fuel it st).1) = 0
      ∧ (cfg.toolLoopV2 = true → execCount (tool_loop cfg orc names fuel it st).1 ≤ 1)
      ∧ clampWarnCount (tool_loop cfg orc names fuel it st).1 ≤ 1 := by
  intro fuel
  induction fuel with
  | zero => intro it st; exact ⟨rfl, fun _ => Nat.zero_le 1, Nat.zero_le 1⟩
  | succ n ih =>
    intro it st
    unfold tool_loop
    dsimp only
    split
    · rename_i hv2
      split <;>
        exact ⟨(v2_turn_counts _ _ _ _).1, fun _ => (v2_turn_counts _ _ _ _).2.1,
          (v2_turn_counts _ _ _ _).2.2⟩
    · rename_i hv2
      have hflag : cfg.toolLoopV2 = false := by
        cases hb : cfg.toolLoopV2
        · rfl
        · exact absurd hb hv2
      split
      · exact ⟨(legacy_turn_counts _ _ _ _ hflag).1,
          fun hv => absurd hv hv2,
          le_trans (le_of_eq (legacy_turn_counts _ _ _ _ hflag).2) (Nat.zero_le 1)⟩
      · refine ⟨?_, fun hv => absurd hv hv2, ?_⟩
        · rw [countDone_events_append, (legacy_turn_counts _ _ _ _ hflag).1, (ih _ _).1]
        · rw [clampWarnCount_append, (legacy_turn_counts _ _ _ _ hflag).2, Nat.zero_add]
          exact (ih _ _).2.2
      · exact ⟨(legacy_turn_counts _ _ _ _ hflag).1,
          fun hv => absurd hv hv2,
          le_trans (le_of_eq (legacy_turn_counts _ _ _ _ hflag).2) (Nat.zero_le 1)⟩

theorem toolTriple_mono (msgs suf : List Msg) (i : String) (h : ToolTriple msgs i) :
    ToolTriple (msgs ++ suf) i := by
  obtain ⟨am, ct, hb, hs⟩ := h
  exact ⟨am, ct, hb, hs.trans (List.sublist_append_left msgs suf)⟩

/-- Composing an iteration with the rest of the loop preserves the
message-extension and tool-triple invariants. -/
theorem triple_compose (acts1 acts2 : List Action) (m0 m1 m2 : List Msg)
    (h1 : ∃ s, m1 = m0 ++ s) (h2 : ∃ s, m2 = m1 ++ s)
    (t1 : ∀ i n r a b, Action.emit (.toolResult i n r a b) ∈ acts1 → ToolTriple m1 i)
    (t2 : ∀ i n r a b, Action.emit (.toolResult i n r a b) ∈ acts2 → ToolTriple m2 i) :
    (∃ s, m2 = m0 ++ s)
    ∧ (∀ i n r a b, Action.emit (.toolResult i n r a b) ∈ acts1 ++ acts2 →
        ToolTriple m2 i) := by
  obtain ⟨s1, e1⟩ := h1
  obtain ⟨s2, e2⟩ := h2
  refine ⟨⟨s1 ++ s2, by rw [e2, e1, List.append_assoc]⟩, ?_⟩
  intro i n r a b hm
  rcases List.mem_append.mp hm with h | h
  · rw [e2]
    exact toolTriple_mono _ _ _ (t1 i n r a b h)
  · exact t2 i n r a b h

theorem v2_fallback_msgs (acts : List Action) (st : LoopState) (fin : V2Finalize) :
    (v2_fallback acts st fin).st.messages = st.messages
    ∧ ∀ i n r a b, Action.emit (.toolResult i n r a b) ∈ (v2_fallback acts st fin).acts →
        Action.emit (.toolResult i n r a b) ∈ acts := by
  unfold v2_fallback
  cases hr : fin.fallbackRaise with
  | some m =>
    dsimp only
    refine ⟨rfl, ?_⟩
    intro i n r a b hm
    rcases List.mem_append.mp hm with h | h
    · rcases List.mem_append.mp h with h | h
      · exact h
      · obtain ⟨x, _, hx⟩ := List.mem_map.mp h
        cases hx
    · cases List.mem_singleton.mp h
  | none =>
    dsimp only
    refine ⟨rfl, ?_⟩
    intro i n r a b hm
    rcases List.mem_append.mp hm with h | h
    · exact h
    · obtain ⟨x, _, hx⟩ := List.mem_map.mp h
      cases hx

theorem legacy_finalize_fallback_msgs (acts : List Action) (st : LoopState)
    (fin : LegacyFinalize) :
    (legacy_finalize_fallback acts st fin).st.messages = st.messages
    ∧ ∀ i n r a b, Action.emit (.toolResult i n r a b)
        ∈ (legacy_finalize_fallback acts st fin).acts →
        Action.emit (.toolResult i n r a b) ∈ acts := by
  unfold legacy_finalize_fallback
  obtain ⟨_, _, _, fNoTR⟩ := streamish_counts _
    (legacy_fallback_consume_streamish fin.fallbackEvents)
  dsimp only
  split
  · refine ⟨rfl, ?_⟩
    intro i n r a b hm
    rcases List.mem_append.mp hm with h | h
    · rcases List.mem_append.mp h with h | h
      · exact h
      · exact absurd h (fNoTR i n r a b)
    · cases List.mem_singleton.mp h
  · split
    · refine ⟨rfl, ?_⟩
      intro i n r a b hm
      rcases List.mem_append.mp hm with h | h
      · rcases List.mem_append.mp h with h | h
        · exact h
        · exact absurd h (fNoTR i n r a b)
      · cases List.mem_singleton.mp h
    · refine ⟨rfl, ?_⟩
      intro i n r a b hm
      rcases List.mem_append.mp hm with h | h
      · exact h
      · exact absurd h (fNoTR i n r a b)

/-- In the V2 tool block, the only `tool_result` frame carries the
completed call's id. -/
theorem v2_block_toolResult_id (pre mid : List Action) (call : CompletedCall)
    (rv : PyVal) (m1 m2 : String)
    (hpre : pre.all streamish = true)
    (hmid : ∀ i n r a b, Action.emit (.toolResult i n r a b) ∉ mid)
    (i n : String) (r : PyVal) (a b : String)
    (hm : Action.emit (.toolResult i n r a b)
      ∈ (((pre ++ [Action.emit (.toolCallsEv [call])])
          ++ [Action.emit (.toolExecuting call.id call.name m1 m2)]) ++ mid)
        ++ [Action.emit (.toolResult call.id call.name rv m1 m2)]) :
    i = call.id := by
  obtain ⟨_, _, _, hNoTR⟩ := streamish_counts pre hpre
  rcases List.mem_append.mp hm with h | h
  · rcases List.mem_append.mp h with h | h
    · rcases List.mem_append.mp h with h | h
      · rcases List.mem_append.mp h with h | h
        · exact absurd h (hNoTR i n r a b)
        · cases List.mem_singleton.mp h
      · cases List.mem_singleton.mp h
    · exact absurd h (hmid i n r a b)
  · have h2 := List.mem_singleton.mp h
    injection h2 with h3
    injection h3

/-- Every control path of a V2 iteration extends the message list, and any
`tool_result` frame it emits is answered by the assistant-call / tool /
nudge triple in the resulting messages. -/
theorem v2_turn_triple (cfg : Cfg) (orc : Oracle) (it : Nat) (st : LoopState) :
    (∃ suf, (v2_turn cfg orc it st).st.messages = st.messages ++ suf)
    ∧ (∀ i n r a b, Action.emit (.toolResult i n r a b) ∈ (v2_turn cfg orc it st).acts →
        ToolTriple (v2_turn cfg orc it st).st.messages i) := by
  obtain ⟨_, _, _, cNoTR⟩ := streamish_counts _
    (v2_consume_streamish cfg.jparse it (orc.v2Turn it).events [] st.sentAny)
  unfold v2_turn
  dsimp only
  cases hcc : (v2_consume cfg.jparse it (orc.v2Turn it).events [] st.sentAny).completed with
  | none =>
    dsimp only
    split
    · exact ⟨⟨[], (List.append_nil _).symm⟩,
        fun i n r a b hm => absurd hm (cNoTR i n r a b)⟩
    · split
      · exact ⟨⟨[], (List.append_nil _).symm⟩,
          fun i n r a b hm => absurd hm (cNoTR i n r a b)⟩
      · refine ⟨⟨[], (List.append_nil _).symm⟩, ?_⟩
        intro i n r a b hm
        rcases List.mem_append.mp hm with h | h
        · exact absurd h (cNoTR i n r a b)
        · cases List.mem_singleton.mp h
  | some call =>
    dsimp only
    have ht : ToolTriple ((st.messages ++ [Msg.assistantCalls [call]])
        ++ [Msg.toolMsg call.id (tool_msg_content
              (run_tool true orc call.name
                (if call.name = "search_web" then
                  enrich_args (parse_time_constraints cfg.textFacts cfg.now) cfg.fmtDate
                    (parse_args cfg.jparse call.arguments)
                 else parse_args cfg.jparse call.arguments) st.search st.execCtr).2.1),
            Msg.userMsg nudgeText]) call.id := by
      refine ⟨Msg.assistantCalls [call],
        tool_msg_content
          (run_tool true orc call.name
            (if call.name = "search_web" then
              enrich_args (parse_time_constraints cfg.textFacts cfg.now) cfg.fmtDate
                (parse_args cfg.jparse call.arguments)
             else parse_args cfg.jparse call.arguments) st.search st.execCtr).2.1,
        ⟨call, List.mem_singleton_self call, rfl⟩, ?_⟩
      rw [List.append_assoc]
      exact List.sublist_append_right st.messages _
    have hid : ∀ i n r a b, Action.emit (.toolResult i n r a b)
        ∈ ((((v2_consume cfg.jparse it (orc.v2Turn it).events [] st.sentAny).acts
            ++ [Action.emit (.toolCallsEv [call])])
            ++ [Action.emit (.toolExecuting call.id call.name
                  (tool_metadata call.name).1 (tool_metadata call.name).2)])
            ++ (run_tool true orc call.name
                (if call.name = "search_web" then
                  enrich_args (parse_time_constraints cfg.textFacts cfg.now) cfg.fmtDate
                    (parse_args cfg.jparse call.arguments)
                 else parse_args cfg.jparse call.arguments) st.search st.execCtr).1)
            ++ [Action.emit (.toolResult call.id call.name
                  (run_tool true orc call.name
                    (if call.name = "search_web" then
                      enrich_args (parse_time_constraints cfg.textFacts cfg.now) cfg.fmtDate
                        (parse_args cfg.jparse call.arguments)
                     else parse_args cfg.jparse call.arguments) st.search st.execCtr).2.1
                  (tool_metadata call.name).1 (tool_metadata call.name).2)] →
        i = call.id :=
      fun i n r a b hm => v2_block_toolResult_id _ _ call _ _ _
        (v2_consume_streamish cfg.jparse it (orc.v2Turn it).events [] st.sentAny)
        (run_tool_facts true orc call.name
          (if call.name = "search_web" then
            enrich_args (parse_time_constraints cfg.textFacts cfg.now) cfg.fmtDate
              (parse_args cfg.jparse call.arguments)
           else parse_args cfg.jparse call.arguments) st.search st.execCtr).2.2.2
        i n r a b hm
    cases hf : (orc.v2Fin it).completionOutcome with
    | ok content =>
      dsimp only
      split
      · refine ⟨⟨_, List.append_assoc _ _ _⟩, ?_⟩
        intro i n r a b hm
        rcases List.mem_append.mp hm with h | h
        · rcases hid i n r a b h with rfl
          exact ht
        · cases List.mem_singleton.mp h
      · refine ⟨⟨[Msg.assistantCalls [call]] ++
            [Msg.toolMsg call.id (tool_msg_content
              (run_tool true orc call.name
                (if call.name = "search_web" then
                  enrich_args (parse_time_constraints cfg.textFacts cfg.now) cfg.fmtDate
                    (parse_args cfg.jparse call.arguments)
                 else parse_args cfg.jparse call.arguments) st.search st.execCtr).2.1),
             Msg.userMsg nudgeText], ?_⟩, ?_⟩
        · rw [(v2_fallback_msgs _ _ _).1]
          exact List.append_assoc _ _ _
        · intro i n r a b hm
          have h := (v2_fallback_msgs _ _ _).2 i n r a b hm
          rcases hid i n r a b h with rfl
          rw [(v2_fallback_msgs _ _ _).1]
          exact ht
    | error m =>
      dsimp only
      refine ⟨⟨[Msg.assistantCalls [call]] ++
          [Msg.toolMsg call.id (tool_msg_content
            (run_tool true orc call.name
              (if call.name = "search_web" then
                enrich_args (parse_time_constraints cfg.textFacts cfg.now) cfg.fmtDate
                  (parse_args cfg.jparse call.arguments)
               else parse_args cfg.jparse call.arguments) st.search st.execCtr).2.1),
           Msg.userMsg nudgeText], ?_⟩, ?_⟩
      · rw [(v2_fallback_msgs _ _ _).1]
        exact List.append_assoc _ _ _
      · intro i n r a b hm
        have h := (v2_fallback_msgs _ _ _).2 i n r a b hm
        rcases List.mem_append.mp h with h | h
        · rcases hid i n r a b h with rfl
          rw [(v2_fallback_msgs _ _ _).1]
          exact ht
        · cases List.mem_singleton.mp h

/-- The legacy per-call fold appends one tool message per executed call,
and every `tool_result` frame it emits has the id of one of the calls, with
a matching tool message in the appended suffix. -/
theorem legacy_calls_fold_mem (cfg : Cfg) (orc : Oracle) :
    ∀ (calls : List LegacyCall) (st : LoopState),
      ∃ suf, (legacy_calls_fold cfg orc calls st).2.messages = st.messages ++ suf
        ∧ ∀ i n r a b,
            Action.emit (.toolResult i n r a b) ∈ (legacy_calls_fold cfg orc calls st).1 →
            (∃ tc ∈ calls, tc.id.getD "unknown" = i) ∧ ∃ ct, Msg.toolMsg i ct ∈ suf := by
  intro calls
  induction calls with
  | nil =>
    intro st
    exact ⟨[], (List.append_nil _).symm,
      fun i n r a b hm => absurd hm (List.not_mem_nil _)⟩
  | cons tc rest ih =>
    intro st
    unfold legacy_calls_fold
    dsimp only
    obtain ⟨suf, hEq, hmem⟩ := ih
      { st with
        messages := st.messages ++ [Msg.toolMsg (tc.id.getD "unknown")
          (tool_msg_content (run_tool cfg.toolLoopV2 orc tc.name
            (if tc.name = "search_web" then
              enrich_args (parse_time_constraints cfg.textFacts cfg.now) cfg.fmtDate
                (parse_args cfg.jparse tc.arguments)
             else parse_args cfg.jparse tc.arguments) st.search st.execCtr).2.1)]
        search := (run_tool cfg.toolLoopV2 orc tc.name
            (if tc.name = "search_web" then
              enrich_args (parse_time_constraints cfg.textFacts cfg.now) cfg.fmtDate
                (parse_args cfg.jparse tc.arguments)
             else parse_args cfg.jparse tc.arguments) st.search st.execCtr).2.2.1
        execCtr := (run_tool cfg.toolLoopV2 orc tc.name
            (if tc.name = "search_web" then
              enrich_args (parse_time_constraints cfg.textFacts cfg.now) cfg.fmtDate
                (parse_args cfg.jparse tc.arguments)
             else parse_args cfg.jparse tc.arguments) st.search st.execCtr).2.2.2 }
    refine ⟨[Msg.toolMsg (tc.id.getD "unknown")
        (tool_msg_content (run_tool cfg.toolLoopV2 orc tc.name
          (if tc.name = "search_web" then
            enrich_args (parse_time_constraints cfg.textFacts cfg.now) cfg.fmtDate
              (parse_args cfg.jparse tc.arguments)
           else parse_args cfg.jparse tc.arguments) st.search st.execCtr).2.1)] ++ suf,
      ?_, ?_⟩
    · rw [hEq]
      exact List.append_assoc _ _ _
    · intro i n r a b hm
      rcases List.mem_append.mp hm with h | h
      · rcases List.mem_append.mp h with h | h
        · rcases List.mem_append.mp h with h | h
          · cases List.mem_singleton.mp h
          · exact absurd h ((run_tool_facts _ _ _ _ _ _).2.2.2 i n r a b)
        · have h2 := List.mem_singleton.mp h
          have h4 : i = tc.id.getD "unknown" := by
            injection h2 with h3
            injection h3
          subst h4
          exact ⟨⟨tc, List.mem_cons_self tc rest, rfl⟩,
            tool_msg_content (run_tool cfg.toolLoopV2 orc tc.name
              (if tc.name = "search_web" then
                enrich_args (parse_time_constraints cfg.textFacts cfg.now) cfg.fmtDate
                  (parse_args cfg.jparse tc.arguments)
               else parse_args cfg.jparse tc.arguments) st.search st.execCtr).2.1,
            List.mem_append.mpr (Or.inl (List.mem_singleton_self _))⟩
      · obtain ⟨⟨tc2, htc2, hid2⟩, ct, hct⟩ := hmem i n r a b h
        exact ⟨⟨tc2, List.mem_cons_of_mem tc htc2, hid2⟩,
          ct, List.mem_append.mpr (Or.inr hct)⟩

/-- Every control path of a legacy iteration extends the message list, and
any `tool_result` frame it emits is answered by the triple in the resulting
messages. -/
theorem legacy_turn_triple (cfg : Cfg) (orc : Oracle) (it : Nat) (st : LoopState) :
    (∃ suf, (legacy_turn cfg orc it st).st.messages = st.messages ++ suf)
    ∧ (∀ i n r a b, Action.emit (.toolResult i n r a b) ∈ (legacy_turn cfg orc it st).acts →
        ToolTriple (legacy_turn cfg orc it st).st.messages i) := by
  unfold legacy_turn
  cases hl : orc.legacyTurn it with
  | error m =>
    exact ⟨⟨[], (List.append_nil _).symm⟩,
      fun i n r a b hm => absurd hm (List.not_mem_nil _)⟩
  | ok msg =>
    obtain ⟨_, _, _, rNoTR⟩ := streamish_counts _ (map_reasoning_streamish msg.reasoningSegs)
    dsimp only
    split
    · obtain ⟨suf, hEq, hmem⟩ := legacy_calls_fold_mem cfg orc msg.tool_calls
        { st with messages := st.messages ++ [Msg.assistantLegacy msg] }
      have hTrip : ∀ i n r a b,
          Action.emit (.toolResult i n r a b)
            ∈ (legacy_calls_fold cfg orc msg.tool_calls
                { st with messages := st.messages ++ [Msg.assistantLegacy msg] }).1 →
          ToolTriple ((legacy_calls_fold cfg orc msg.tool_calls
              { st with messages := st.messages ++ [Msg.assistantLegacy msg] }).2.messages
            ++ [Msg.userMsg nudgeText]) i := by
        intro i n r a b hm
        obtain ⟨⟨tc2, htc2, hid2⟩, ct, hct⟩ := hmem i n r a b hm
        refine ⟨Msg.assistantLegacy msg, ct, ⟨tc2, htc2, hid2⟩, ?_⟩
        rw [hEq]
        rw [List.append_assoc, List.append_assoc]
        refine List.Sublist.trans ?_ (List.sublist_append_right st.messages _)
        exact (List.Sublist.refl [Msg.assistantLegacy msg]).append
          ((List.singleton_sublist.mpr hct).append (List.Sublist.refl _))
      have hSuf : ∃ s, (legacy_calls_fold cfg orc msg.tool_calls
            { st with messages := st.messages ++ [Msg.assistantLegacy msg] }).2.messages
          ++ [Msg.userMsg nudgeText] = st.messages ++ s := by
        refine ⟨[Msg.assistantLegacy msg] ++ suf ++ [Msg.userMsg nudgeText], ?_⟩
        rw [hEq]
        simp [List.append_assoc]
      have hA1 : ∀ i n r a b,
          Action.emit (.toolResult i n r a b)
            ∈ msg.reasoningSegs.map (fun s => Action.emit (DEvent.reasoningEv s))
              ++ [Action.emit (.toolCallsEv (msg.tool_calls.map
                  (fun tc => CompletedCall.mk (tc.id.getD "unknown") tc.name tc.arguments)))] →
          False := by
        intro i n r a b hm
        rcases List.mem_append.mp hm with h | h
        · exact rNoTR i n r a b h
        · cases List.mem_singleton.mp h
      cases hf : (orc.legacyFin it).completionOutcome with
      | ok content =>
        dsimp only
        split
        · refine ⟨hSuf, ?_⟩
          intro i n r a b hm
          rcases List.mem_append.mp hm with h | h
          · rcases List.mem_append.mp h with h | h
            · exact absurd h (hA1 i n r a b)
            · exact hTrip i n r a b h
          · cases List.mem_singleton.mp h
        · refine ⟨?_, ?_⟩
          · obtain ⟨s, hs⟩ := hSuf
            refine ⟨s, ?_⟩
            rw [(legacy_finalize_fallback_msgs _ _ _).1]
            exact hs
          · intro i n r a b hm
            have h := (legacy_finalize_fallback_msgs _ _ _).2 i n r a b hm
            rw [(legacy_finalize_fallback_msgs _ _ _).1]
            rcases List.mem_append.mp h with h | h
            · exact absurd h (hA1 i n r a b)
            · exact hTrip i n r a b h
      | error m =>
        dsimp only
        refine ⟨?_, ?_⟩
        · obtain ⟨s, hs⟩ := hSuf
          refine ⟨s, ?_⟩
          rw [(legacy_finalize_fallback_msgs _ _ _).1]
          exact hs
        · intro i n r a b hm
          have h := (legacy_finalize_fallback_msgs _ _ _).2 i n r a b hm
          rw [(legacy_finalize_fallback_msgs _ _ _).1]
          rcases List.mem_append.mp h with h | h
          · rcases List.mem_append.mp h with h | h
            · exact absurd h (hA1 i n r a b)
            · exact hTrip i n r a b h
          · cases List.mem_singleton.mp h
    · split
      · split
        · exact ⟨⟨[Msg.assistantLegacy msg], rfl⟩,
            fun i n r a b hm => absurd hm (rNoTR i n r a b)⟩
        · refine ⟨⟨[], (List.append_nil _).symm⟩, ?_⟩
          intro i n r a b hm
          rcases List.mem_append.mp hm with h | h
          · exact absurd h (rNoTR i n r a b)
          · cases List.mem_singleton.mp h
      · split
        · exact ⟨⟨[Msg.assistantLegacy msg], rfl⟩,
            fun i n r a b hm => absurd hm (rNoTR i n r a b)⟩
        · refine ⟨⟨[], (List.append_nil _).symm⟩, ?_⟩
          intro i n r a b hm
          rcases List.mem_append.mp hm with h | h
          · exact absurd h (rNoTR i n r a b)
          · cases List.mem_singleton.mp h

/-- Across the whole tool loop: the final message list extends the initial
one, and every emitted `tool_result` frame is answered by the triple in the
final messages. -/
theorem tool_loop_triple (cfg : Cfg) (orc : Oracle) (names : List String) :
    ∀ (fuel it : Nat) (st : LoopState),
      (∃ suf, (loopEndState (tool_loop cfg orc names fuel it st).2).messages
        = st.messages ++ suf)
      ∧ (∀ i n r a b,
          Action.emit (.toolResult i n r a b) ∈ (tool_loop cfg orc names fuel it st).1 →
          ToolTriple (loopEndState (tool_loop cfg orc names fuel it st).2).messages i) := by
  intro fuel
  induction fuel with
  | zero =>
    intro it st
    exact ⟨⟨[], (List.append_nil _).symm⟩,
      fun i n r a b hm => absurd hm (List.not_mem_nil _)⟩
  | succ n ih =>
    intro it st
    unfold tool_loop
    dsimp only
    split
    · split
      · exact ⟨(v2_turn_triple _ _ _ _).1, (v2_turn_triple _ _ _ _).2⟩
      · exact ⟨(v2_turn_triple _ _ _ _).1, (v2_turn_triple _ _ _ _).2⟩
      · exact ⟨(v2_turn_triple _ _ _ _).1, (v2_turn_triple _ _ _ _).2⟩
    · split
      · exact ⟨(legacy_turn_triple _ _ _ _).1, (legacy_turn_triple _ _ _ _).2⟩
      · refine triple_compose _ _ _ _ _ ?_ (ih _ _).1 ?_ (ih _ _).2
        · exact (legacy_turn_triple _ _ _ _).1
        · exact (legacy_turn_triple _ _ _ _).2
      · exact ⟨(legacy_turn_triple _ _ _ _).1, (legacy_turn_triple _ _ _ _).2⟩

theorem execCount_emit (e : DEvent) : execCount [Action.emit e] = 0 := rfl

theorem execCount_nil : execCount ([] : List Action) = 0 := rfl

theorem clampWarn_emit (e : DEvent) (h : isClampWarn e = false) :
    clampWarnCount [Action.emit e] = 0 := by
  rw [clampWarnCount_cons_emit e [] h]; rfl

theorem clampWarn_warning_none (m : String) :
    clampWarnCount [Action.emit (DEvent.warning m none)] = 0 :=
  clampWarn_emit _ rfl

theorem clampWarn_content (s : String) :
    clampWarnCount [Action.emit (DEvent.contentEv s)] = 0 :=
  clampWarn_emit _ rfl

theorem clampWarn_nil : clampWarnCount ([] : List Action) = 0 := rfl

theorem clampWarn_error (m : String) :
    clampWarnCount [Action.emit (DEvent.errorEv m)] = 0 :=
  clampWarn_emit (DEvent.errorEv m) rfl

theorem clampWarn_done : clampWarnCount [Action.emit DEvent.doneEv] = 0 := rfl

/-- C1 counterexample: an exception raised by the upstream stream inside
the loop (here `svc.stream_events` raising "boom") makes the outer
`except` emit only the `error` frame — chat.py lines 756-764 contain no
`yield` of a `done` frame after the error, so the stream does not end with
`done` and the claimed terminal `done` is absent. -/
theorem c1_counterexample_error_without_done : ¬ C1Claim := by
  intro hc
  have h := (hc baseCfg c1CexOracle ⟨rfl, trivial⟩).1
  rw [show countDone (events (generate baseCfg c1CexOracle).1) = 0 from rfl] at h
  exact absurd h (by decide)

/-- C1 (corrected): every stream ends either with exactly one `done` frame
placed last (all normal paths), or — when an exception escapes the loop or
tools validation fails — with an `error`/`rawError` frame placed last and
no `done` frame at all. -/
theorem c1_stream_termination (cfg : Cfg) (orc : Oracle) :
    (countDone (events (generate cfg orc).1) = 1
      ∧ (events (generate cfg orc).1).getLast? = some DEvent.doneEv)
    ∨ (countDone (events (generate cfg orc).1) = 0
      ∧ ∃ e, isErrorFrame e = true
          ∧ (events (generate cfg orc).1).getLast? = some e) := by
  unfold generate
  split
  · exact Or.inl ⟨rfl, rfl⟩
  · dsimp only
    split
    · rename_i m heq
      exact Or.inr ⟨rfl, DEvent.rawError ("Invalid tools JSON: " ++ m), rfl, rfl⟩
    · exact Or.inr ⟨rfl, DEvent.rawError "Tools must be a JSON array", rfl, rfl⟩
    · split
      · split
        · rename_i m stE heq
          refine Or.inr ⟨?_, DEvent.errorEv m, rfl, ?_⟩
          · rw [countDone_events_append, (tool_loop_counts _ _ _ _ _ _).1]
            rfl
          · rw [events_append,
              show events [Action.emit (DEvent.errorEv m)] = [DEvent.errorEv m] from rfl]
            exact List.getLast?_concat _
        · refine Or.inl ⟨?_, ?_⟩
          · rw [countDone_events_append, countDone_events_append,
              (tool_loop_counts _ _ _ _ _ _).1]
            repeat' split
            all_goals rfl
          · rw [events_append,
              show events [Action.emit DEvent.doneEv] = [DEvent.doneEv] from rfl]
            exact List.getLast?_concat _
      · split
        · rename_i m heq
          refine Or.inr ⟨?_, DEvent.errorEv m, rfl, ?_⟩
          · rw [countDone_events_append,
              (streamish_counts _ (map_content_streamish orc.plainChunks)).1]
            rfl
          · rw [events_append,
              show events [Action.emit (DEvent.errorEv m)] = [DEvent.errorEv m] from rfl]
            exact List.getLast?_concat _
        · refine Or.inl ⟨?_, ?_⟩
          · rw [countDone_events_append,
              (streamish_counts _ (map_content_streamish orc.plainChunks)).1]
            rfl
          · rw [events_append,
              show events [Action.emit DEvent.doneEv] = [DEvent.doneEv] from rfl]
            exact List.getLast?_concat _

/-- C2: whenever a `tool_result` frame for a call id is emitted during a
streaming chat request, the final message list contains, in order, the
assistant message bearing that call, a tool message answering that call id,
and the finalization user nudge. -/
theorem c2_tool_message_order (cfg : Cfg) (orc : Oracle) (i n : String) (r : PyVal)
    (a b : String)
    (hm : Action.emit (DEvent.toolResult i n r a b) ∈ (generate cfg orc).1) :
    ToolTriple (generate cfg orc).2 i := by
  unfold generate at hm ⊢
  revert hm
  split
  · intro hm
    simp at hm
  · dsimp only
    split
    · intro hm
      simp at hm
    · intro hm
      simp at hm
    · split
      · split
        · rename_i m stE heq
          intro hm
          rcases List.mem_append.mp hm with h | h
          · have ht := (tool_loop_triple _ _ _ _ _ _).2 i n r a b h
            rw [heq] at ht
            exact ht
          · simp at h
        · rename_i stN itN heq
          intro hm
          rcases List.mem_append.mp hm with h | h
          · rcases List.mem_append.mp h with h | h
            · have ht := (tool_loop_triple _ _ _ _ _ _).2 i n r a b h
              rw [heq] at ht
              exact ht
            · repeat' split at h
              all_goals simp at h
          · simp at h
      · split
        · intro hm
          rcases List.mem_append.mp hm with h | h
          · obtain ⟨x, _, hx⟩ := List.mem_map.mp h
            cases hx
          · simp at h
        · intro hm
          rcases List.mem_append.mp hm with h | h
          · obtain ⟨x, _, hx⟩ := List.mem_map.mp h
            cases hx
          · simp at h

/-- C2 witness: in the concrete V2 run that completes one `search_web`
call, the `tool_result` frame for `call_0` is emitted and the final
messages contain the assistant-call / tool / nudge triple for it. -/
theorem c2_tool_message_order_witness :
    Action.emit (DEvent.toolResult "call_0" "search_web"
        (PyVal.pydict [("success", PyVal.pybool true), ("result", PyVal.pydict [])])
        "search" "primary") ∈ (generate v2ToolCfg v2ToolOracle).1
    ∧ ToolTriple (generate v2ToolCfg v2ToolOracle).2 "call_0" := by
  have hm : Action.emit (DEvent.toolResult "call_0" "search_web"
      (PyVal.pydict [("success", PyVal.pybool true), ("result", PyVal.pydict [])])
      "search" "primary") ∈ (generate v2ToolCfg v2ToolOracle).1 := by
    rw [show (generate v2ToolCfg v2ToolOracle).1 =
      [Action.emit (DEvent.reasoningEv "thinking"),
       Action.emit (DEvent.toolCallsEv [⟨"call_0", "search_web", argQx⟩]),
       Action.emit (DEvent.toolExecuting "call_0" "search_web" "search" "primary"),
       Action.execCall "search_web" (PyVal.pydict [("query", PyVal.pystr "x")]),
       Action.emit (DEvent.toolResult "call_0" "search_web"
         (PyVal.pydict [("success", PyVal.pybool true), ("result", PyVal.pydict [])])
         "search" "primary"),
       Action.emit (DEvent.contentEv "final answer"),
       Action.emit DEvent.doneEv] from rfl]
    exact List.mem_cons_of_mem _ (List.mem_cons_of_mem _ (List.mem_cons_of_mem _
      (List.mem_cons_of_mem _ (List.mem_cons_self _ _))))
  exact ⟨hm, c2_tool_message_order v2ToolCfg v2ToolOracle "call_0" "search_web"
    (PyVal.pydict [("success", PyVal.pybool true), ("result", PyVal.pydict [])])
    "search" "primary" hm⟩

/-- C3 counterexample: in the legacy branch (`TOOL_LOOP_V2` unset, the
mounted default) the dedupe guard `if tool_loop_v2 and fname == "search_web"`
is never taken, so two `search_web` calls with the identical canonical key
BOTH reach `tool_executor.execute` — the claimed only-first-contacts-backend
property fails. -/
theorem c3_counterexample_duplicate_searches : ¬ C3Claim := by
  intro hc
  have h := hc legacyCfg dupCallsOracle
  rw [show searchExecKeys (generate legacyCfg dupCallsOracle).1
      = [⟨"x", "", "", ""⟩, ⟨"x", "", "", ""⟩] from rfl] at h
  simp at h

/-- C3 (corrected): the dedupe cache works as claimed only where the guard
is active — a cache hit returns the cached result without invoking the
executor — and in the V2 branch the loop executes at most one tool call per
request anyway (it breaks after the first iteration), so at most one
`search_web` invocation reaches the backend at all. -/
theorem c3_v2_dedupe (cfg : Cfg) (orc : Oracle) (st : SearchState) (key : CanonKey)
    (cached r : PyVal) (hv2 : cfg.toolLoopV2 = true)
    (hhit : cacheFind st.cache key = some cached) :
    execCount (generate cfg orc).1 ≤ 1
    ∧ search_step st key r = ⟨cached, st, false, false⟩ := by
  constructor
  · unfold generate
    split
    · exact Nat.zero_le 1
    · dsimp only
      split
      · exact Nat.zero_le 1
      · exact Nat.zero_le 1
      · split
        · split
          · rename_i m stE heq
            rw [execCount_append, execCount_emit, Nat.add_zero]
            exact (tool_loop_counts _ _ _ _ _ _).2.1 hv2
          · rename_i stN itN heq
            rw [execCount_append, execCount_append, execCount_emit, Nat.add_zero]
            have hLA : ∀ acts2 : List Action, execCount acts2 = 0 →
                execCount (tool_loop cfg orc
                  (match cfg.toolsParam with
                   | ToolsParam.parsed nonEmpty ns => ns
                   | _ => [])
                  (if cfg.max_tool_calls = 0 then 20 else cfg.max_tool_calls) 0
                  ⟨(match cfg.systemPrompt with
                     | some s => if s ≠ "" then [Msg.systemMsg s] else []
                     | none => []) ++
                      (if cfg.prompt ≠ "" then [Msg.userMsg cfg.prompt]
                       else [Msg.userMsg "Hello"]),
                    false, ⟨[], 0, false⟩, 0, false⟩).1 + execCount acts2 ≤ 1 := by
              intro acts2 h2
              rw [h2, Nat.add_zero]
              exact (tool_loop_counts _ _ _ _ _ _).2.1 hv2
            apply hLA
            repeat' split
            all_goals rfl
        · split
          · rw [execCount_append,
              (streamish_counts _ (map_content_streamish orc.plainChunks)).2.1,
              execCount_emit]
            decide
          · rw [execCount_append,
              (streamish_counts _ (map_content_streamish orc.plainChunks)).2.1,
              execCount_emit]
            decide
  · unfold search_step
    rw [hhit]

/-- C3 witness: a concrete V2 request together with a concrete cache-hit
step — the cached value is returned unchanged and the executor is not
invoked. -/
theorem c3_v2_dedupe_witness :
    baseCfg.toolLoopV2 = true
    ∧ cacheFind [(k0, okResult)] k0 = some okResult
    ∧ execCount (generate baseCfg baseOracle).1 ≤ 1
    ∧ search_step ⟨[(k0, okResult)], 1, false⟩ k0 okResult2
      = ⟨okResult, ⟨[(k0, okResult)], 1, false⟩, false, false⟩ :=
  ⟨rfl, rfl,
    (c3_v2_dedupe baseCfg baseOracle ⟨[(k0, okResult)], 1, false⟩ k0 okResult okResult2
      rfl rfl).1,
    (c3_v2_dedupe baseCfg baseOracle ⟨[(k0, okResult)], 1, false⟩ k0 okResult okResult2
      rfl rfl).2⟩

/-- C4 counterexample: in the legacy branch the clamp guard is dead code
(same `tool_loop_v2 and ...` guard), so a single completion carrying 7
`search_web` calls with 7 distinct canonical keys sends all 7 to the
backend — the claimed at-most-6-unique-searches bound fails. -/
theorem c4_counterexample_seventh_search : ¬ C4Claim := by
  intro hc
  have h := hc sevenCfg sevenOracle
  rw [show searchExecKeys (generate sevenCfg sevenOracle).1
      = [⟨"q1", "", "", ""⟩, ⟨"q2", "", "", ""⟩, ⟨"q3", "", "", ""⟩,
         ⟨"q4", "", "", ""⟩, ⟨"q5", "", "", ""⟩, ⟨"q6", "", "", ""⟩,
         ⟨"q7", "", "", ""⟩] from rfl] at h
  exact absurd h (by decide)

/-- C4 (corrected): where the guard is active the clamp works as claimed —
at or above 6 unique searches a cache-miss key returns the clamp error
without invoking the executor, flagging the one-shot warning — and every
request emits at most one `warning{code:"TOOL_CLAMP"}` frame. -/
theorem c4_clamp_and_single_warning (cfg : Cfg) (orc : Oracle) (st : SearchState)
    (key : CanonKey) (r : PyVal)
    (hmiss : cacheFind st.cache key = none)
    (hcap : st.uniqueCount ≥ search_clamp_limit) :
    clampWarnCount (generate cfg orc).1 ≤ 1
    ∧ search_step st key r
      = ⟨clampErrorResult, { st with clampWarningSent := true },
         !st.clampWarningSent, false⟩ := by
  constructor
  · unfold generate
    split
    · exact Nat.zero_le 1
    · dsimp only
      split
      · exact Nat.zero_le 1
      · exact Nat.zero_le 1
      · split
        · split
          · rename_i m stE heq
            rw [clampWarnCount_append, clampWarn_error, Nat.add_zero]
            exact (tool_loop_counts _ _ _ _ _ _).2.2
          · rename_i stN itN heq
            rw [clampWarnCount_append, clampWarnCount_append, clampWarn_done,
              Nat.add_zero]
            have hLA : ∀ acts2 : List Action, clampWarnCount acts2 = 0 →
                clampWarnCount (tool_loop cfg orc
                  (match cfg.toolsParam with
                   | ToolsParam.parsed nonEmpty ns => ns
                   | _ => [])
                  (if cfg.max_tool_calls = 0 then 20 else cfg.max_tool_calls) 0
                  ⟨(match cfg.systemPrompt with
                     | some s => if s ≠ "" then [Msg.systemMsg s] else []
                     | none => []) ++
                      (if cfg.prompt ≠ "" then [Msg.userMsg cfg.prompt]
                       else [Msg.userMsg "Hello"]),
                    false, ⟨[], 0, false⟩, 0, false⟩).1 + clampWarnCount acts2 ≤ 1 := by
              intro acts2 h2
              rw [h2, Nat.add_zero]
              exact (tool_loop_counts _ _ _ _ _ _).2.2
            apply hLA
            repeat' split
            all_goals rfl
        · split
          · rw [clampWarnCount_append,
              (streamish_counts _ (map_content_streamish orc.plainChunks)).2.2.1,
              clampWarn_error]
            decide
          · rw [clampWarnCount_append,
              (streamish_counts _ (map_content_streamish orc.plainChunks)).2.2.1,
              clampWarn_done]
            decide
  · unfold search_step
    rw [hmiss, if_pos hcap]

/-- C4 witness: a concrete request emits at most one clamp warning, and the
concrete clamp step at 6 unique searches returns the clamp error, sets the
one-shot flag and does not invoke the executor. -/
theorem c4_clamp_and_single_warning_witness :
    cacheFind ([] : List (CanonKey × PyVal)) k0 = none
    ∧ (6 : Nat) ≥ search_clamp_limit
    ∧ clampWarnCount (generate baseCfg baseOracle).1 ≤ 1
    ∧ search_step ⟨[], 6, false⟩ k0 okResult
      = ⟨clampErrorResult, ⟨[], 6, true⟩, true, false⟩ :=
  ⟨rfl, by decide,
    (c4_clamp_and_single_warning baseCfg baseOracle ⟨[], 6, false⟩ k0 okResult
      rfl (by decide)).1,
    (c4_clamp_and_single_warning baseCfg baseOracle ⟨[], 6, false⟩ k0 okResult
      rfl (by decide)).2⟩

end PromptStudio
